import Mathlib

/-!
Shallow embedding of the MusicSearch repository (src/temp.py and
src/MusicSearch_ver2.py): the lyrics-snippet search, the title search, the
paginated artist-albums and artist-songs fetchers, the album-songs fetch,
the HTML-scraping fallback for album pages, the artist-browse orchestration
and the interactive list-selection routine.

External collaborators (the lyricsgenius client, the requests + BeautifulSoup
HTML fetch/parse layer, stdin) are modelled as explicit data: a client is a
record of response oracles, a parsed HTML page is the projection of the
document tree that the scraper inspects (anchors inside class-matched
containers, and all anchors in document order), and user input is a list of
lines.  Python exceptions raised by those collaborators appear as
`Except.error`; code paths of the repository itself are total functions, so
"the function raises" is modelled as returning `Except.error` and "the
function returns normally" as a plain value or `Except.ok`.

Python truthiness is modelled explicitly: a missing value or an empty
string/list is falsy (`truthyS`, `truthyL`), and `a or b` is `pyOrS`/`pyOrL`.
-/

namespace MusicSearch

/-- Emptiness of a string, computed through its character list so that the
kernel can evaluate it. -/
def str_empty (s : String) : Bool := s.toList.isEmpty

/-- Python `str.strip()` (ASCII whitespace), computed on the character
list. -/
def py_strip (s : String) : String :=
  String.mk (((s.toList.dropWhile Char.isWhitespace).reverse.dropWhile
      Char.isWhitespace).reverse)

/-- Python `str.lower()` (ASCII), computed on the character list. -/
def py_lower (s : String) : String :=
  String.mk (s.toList.map Char.toLower)

/-- Truthiness of an optional string, as Python evaluates `if s:` on a value
that is either `None` or a `str`: `None` and `""` are falsy. -/
def truthyS : Option String → Bool
  | none => false
  | some s => !str_empty s

/-- Python `a or b` for optional strings: `a` when `a` is truthy, otherwise
`b` (even when `b` is itself falsy). -/
def pyOrS (a b : Option String) : Option String :=
  if truthyS a then a else b

/-- Truthiness of an optional list (`None` and `[]` are falsy). -/
def truthyL {α : Type} : Option (List α) → Bool
  | none => false
  | some l => !l.isEmpty

/-- Python `a or b` for optional lists. -/
def pyOrL {α : Type} (a b : Option (List α)) : Option (List α) :=
  if truthyL a then a else b

/-! Data shapes of the lyrics-snippet search response
(`search_by_lyrics`, src/temp.py lines 65-94 = src/MusicSearch_ver2.py
lines 49-78).  The response is a nested sections → hits → result structure;
each `get` that may be absent is an `Option`. -/

/-- The `primary_artist` object of a hit result; only its `name` is read. -/
structure Prim where
  name : Option String
deriving Repr, DecidableEq

/-- One hit `result`: `r.get("title")`, `r.get("primary_artist")`,
`r.get("url")`. -/
structure HitResult where
  title : Option String
  primary_artist : Option Prim
  url : Option String
deriving Repr, DecidableEq

/-- One hit; `h.get("result") or {}` makes a missing result behave as an
empty record (all fields absent). -/
structure Hit where
  result : Option HitResult
deriving Repr, DecidableEq

/-- One section of the search response; `sec.get("hits") or []`. -/
structure SearchSection where
  hits : Option (List Hit)
deriving Repr, DecidableEq

/-- The whole `search_lyrics` response; `resp.get("sections") ... or []`.
The model covers the dict-shaped response (the object-shaped branch of
line 74 reads the same key through a `get` shim). -/
structure LyricsResp where
  sections : Option (List SearchSection)
deriving Repr, DecidableEq

/-- A fully-normalized candidate of the lyrics search:
`{"title": title.strip(), "artist": artist.strip(), "url": url.strip()}`. -/
structure Entry where
  title : String
  artist : String
  url : String
deriving Repr, DecidableEq

/-- Reading `(r.get("primary_artist") or {}).get("name")`: a missing or falsy
`primary_artist` yields a missing name. -/
def primName : Option Prim → Option String
  | none => none
  | some p => p.name

/-- The three fields extracted from one hit (src/temp.py lines 78-82). -/
def hit_fields (h : Hit) : Option String × Option String × Option String :=
  match h.result with
  | none => (none, none, none)
  | some r => (r.title, primName r.primary_artist, r.url)

/-- The artist-filter rejection test of src/temp.py line 86:
`artist_filter.strip().lower() != artist.strip().lower()`, guarded by the
truthiness of `artist_filter` on line 85.  `artist_stripped` is the already
stripped artist name of the entry. -/
def artist_filter_rejects (af : Option String) (artist_stripped : String) : Bool :=
  truthyS af && ((py_lower (py_strip (af.getD ("")))) != py_lower artist_stripped)

/-- The guarded normalization of one hit (src/temp.py lines 83-84): the entry
exists exactly when `title and artist and url` are all truthy, and its fields
are the stripped strings. -/
def entry_of_hit (h : Hit) : Option Entry :=
  let f := hit_fields h
  if truthyS f.1 && truthyS f.2.1 && truthyS f.2.2 then
    some ⟨py_strip (f.1.getD ("")), py_strip (f.2.1.getD ("")), py_strip (f.2.2.getD (""))⟩
  else none

/-- The inner `for h in hits` loop of `search_by_lyrics` (src/temp.py lines
77-91): skip invalid hits, `continue` on artist-filter mismatch (which skips
the length check), append when the entry is not already present, and break
once `len(results) >= max_results`. -/
def lyrics_hits_loop (af : Option String) (maxr : Nat) :
    List Hit → List Entry → List Entry
  | [], res => res
  | h :: hs, res =>
    match entry_of_hit h with
    | some entry =>
      if artist_filter_rejects af entry.artist then
        lyrics_hits_loop af maxr hs res
      else
        let res2 := if entry ∈ res then res else res ++ [entry]
        if maxr ≤ res2.length then res2 else lyrics_hits_loop af maxr hs res2
    | none =>
      if maxr ≤ res.length then res else lyrics_hits_loop af maxr hs res

/-- The outer `for sec in sections` loop of `search_by_lyrics` (src/temp.py
lines 75-93); re-checks `len(results) >= max_results` after each section. -/
def lyrics_sections_loop (af : Option String) (maxr : Nat) :
    List SearchSection → List Entry → List Entry
  | [], res => res
  | sec :: secs, res =>
    let res2 := lyrics_hits_loop af maxr (sec.hits.getD []) res
    if maxr ≤ res2.length then res2 else lyrics_sections_loop af maxr secs res2

/-- `search_by_lyrics` (src/temp.py lines 65-94).  The first argument is the
outcome of `genius_client.search_lyrics(snippet)`: an exception there is
wrapped into a `RuntimeError` and propagated (modelled as `Except.error`);
everything after the call is pure processing of the response. -/
def search_by_lyrics (resp : Except String LyricsResp) (artist_filter : Option String)
    (max_results : Nat) : Except String (List Entry) :=
  match resp with
  | .error e => .error e
  | .ok r => .ok (lyrics_sections_loop artist_filter max_results (r.sections.getD []) [])

/-- Modelled from the spec as a reference for order preservation: the valid
hits of the whole response, normalized, in API order (sections in order, hits
within each section in order).  Used only to compare the code's output order
against; the code itself never builds this list. -/
def api_order_entries (r : LyricsResp) : List Entry :=
  (r.sections.getD []).flatMap (fun sec => (sec.hits.getD []).filterMap entry_of_hit)

/-! Title search (`search_by_title`, src/temp.py lines 97-116
= src/MusicSearch_ver2.py lines 81-100). -/

/-- The object returned by `genius_client.search_song`: either an
attribute-bearing object or a dict, with optional `title`, `artist`, `url`. -/
inductive SongObj
  | attrShape (title artist url : Option String)
  | mapShape (title artist url : Option String)
deriving Repr, DecidableEq

/-- The single record `search_by_title` returns (src/temp.py lines 111-116),
including the raw `song_obj`. -/
structure TitleRec where
  title : Option String
  artist : Option String
  url : Option String
  song_obj : SongObj
deriving Repr, DecidableEq

/-- `search_by_title` (src/temp.py lines 97-116).  For an attribute-shaped
song, `getattr(song, f, None) or (... if dict else fallback)` takes the
attribute when truthy and otherwise the non-dict fallback (`title`,
`artist or "Unknown"`, `None`).  For a dict-shaped song the `getattr` is
always `None`, so the result is the raw `song.get(f)` value. -/
def search_by_title (song : Except String (Option SongObj)) (title : String)
    (artist : Option String) : Except String (List TitleRec) :=
  match song with
  | .error e => .error e
  | .ok none => .ok []
  | .ok (some s) =>
    match s with
    | .attrShape t a u =>
      .ok [⟨pyOrS t (some title), pyOrS a (pyOrS artist (some ("Unknown"))),
            pyOrS u none, s⟩]
    | .mapShape t a u => .ok [⟨t, a, u, s⟩]

/-! Interactive list selection (`choose_from_list`, src/temp.py lines 405-416
= src/MusicSearch_ver2.py lines 355-366). -/

/-- Python `str.isdigit` restricted to ASCII input: non-empty and all
characters decimal digits. -/
def is_digits (s : String) : Bool :=
  !str_empty s && s.toList.all Char.isDigit

/-- Decimal value of a digit string (the `int(choice)` conversion). -/
def digits_to_nat (s : String) : Nat :=
  s.toList.foldl (fun n c => n * 10 + (c.toNat - 48)) 0

/-- `choose_from_list` (src/temp.py lines 405-416).  User input is modelled
as the list of lines the loop would consume; the Python loop re-prompts
forever on rejected input, which on a finite line list is the `none` outcome
(no return value is ever produced).  `some none` models `return None` (cancel)
and `some (some i)` models `return idx - 1`. -/
def choose_from_list (max_choice : Nat) : List String → Option (Option Nat)
  | [] => none
  | line :: rest =>
    let choice := py_strip line
    if is_digits choice then
      let idx := digits_to_nat choice
      if idx = 0 then some none
      else if 1 ≤ idx ∧ idx ≤ max_choice then some (some (idx - 1))
      else choose_from_list max_choice rest
    else choose_from_list max_choice rest

/-- Modelled from the spec side as a reference: whether the loop accepts an
input line (a digit string whose value is zero or within `1..max_choice`). -/
def accepts (max_choice : Nat) (line : String) : Bool :=
  is_digits (py_strip line) &&
    (decide (digits_to_nat (py_strip line) = 0) ||
      (decide (1 ≤ digits_to_nat (py_strip line)) &&
        decide (digits_to_nat (py_strip line) ≤ max_choice)))

/-- Modelled from the spec side as a reference: the first input line the loop
accepts. -/
def accepted_line (max_choice : Nat) (inputs : List String) : Option String :=
  inputs.find? (accepts max_choice)

/-! Album-songs fetch (`fetch_album_songs`, src/temp.py lines 248-295
= src/MusicSearch_ver2.py lines 232-279). -/

/-- A dict-shaped track: `t.get("title")`,
`(t.get("primary_artist") or {}).get("name")`, `t.get("url")`. -/
structure TrackD where
  title : Option String
  primary_artist : Option Prim
  url : Option String
deriving Repr, DecidableEq

/-- An attribute-shaped track (src/temp.py lines 272-276): optional `title`,
`artist`, `primary_artist` and `url` attributes. -/
structure TrackO where
  title : Option String
  artist : Option String
  primary_artist : Option Prim
  url : Option String
deriving Repr, DecidableEq

/-- The object returned by `genius_client.album(album_id)`: dict-shaped with
optional `tracks`/`songs` keys, or attribute-shaped with optional
`tracks`/`songs` attributes. -/
inductive AlbumObj
  | dictShape (tracks songs : Option (List TrackD))
  | attrShape (tracks songs : Option (List TrackO))
deriving Repr, DecidableEq

/-- One returned song record `{'title':..., 'artist':..., 'url':...}`; any
field may be `None`. -/
structure SongRec where
  title : Option String
  artist : Option String
  url : Option String
deriving Repr, DecidableEq

/-- The client capabilities `fetch_album_songs` probes, specialised to the
album id of the call: `album` is absent (`none`) when the client has no such
method, `Except.error` when the call raises; likewise `album_songs`, whose
payload is the `res.get("songs")` value. -/
structure AlbumClient where
  album : Option (Except Unit AlbumObj)
  album_songs : Option (Except Unit (Option (List TrackD)))

/-- Normalization of a dict-shaped track (src/temp.py lines 264-267). -/
def track_d_rec (t : TrackD) : SongRec :=
  ⟨t.title, primName t.primary_artist, t.url⟩

/-- Normalization of an attribute-shaped track (src/temp.py lines 273-276):
`getattr(t, "artist", None) or getattr(t.primary_artist, "name", None)`. -/
def track_o_rec (t : TrackO) : SongRec :=
  ⟨t.title, pyOrS t.artist (primName t.primary_artist), t.url⟩

/-- `fetch_album_songs` (src/temp.py lines 248-295).  The `album(...)` probe
returns from inside the function on the dict branch always, and on the
attribute branch only when `tracks or songs` is truthy; a raised call or a
fruitless attribute branch falls through to the `album_songs` probe, and the
function finally returns `[]` so the caller can fall back. -/
def fetch_album_songs (c : AlbumClient) : List SongRec :=
  let viaAlbum : Option (List SongRec) :=
    match c.album with
    | none => none
    | some (.error _) => none
    | some (.ok (AlbumObj.dictShape tracks songs)) =>
      some (((pyOrL tracks songs).getD []).map track_d_rec)
    | some (.ok (AlbumObj.attrShape tracks songs)) =>
      match pyOrL tracks songs with
      | some ts => if ts.isEmpty then none else some (ts.map track_o_rec)
      | none => none
  match viaAlbum with
  | some l => l
  | none =>
    match c.album_songs with
    | none => []
    | some (.error _) => []
    | some (.ok songsOpt) => (songsOpt.getD []).map track_d_rec

/-! Paginated artist-albums fetch (`fetch_artist_albums`, src/temp.py lines
200-245 = src/MusicSearch_ver2.py lines 184-229).  One page request is
`artist_albums_fn(artist_id, per_page=50, page=page)`; the oracle below maps
the page number to the `res.get("albums")` payload of that call, or to
`Except.error` when the call raises. -/

/-- One raw album of a page: dict-shaped (`id`/`name`/`url` keys) or
attribute-shaped (`id`/`name`/`title`/`url` attributes, src/temp.py
lines 226-233). -/
inductive RawAlbumItem
  | dictItem (id : Option Nat) (name url : Option String)
  | attrItem (id : Option Nat) (name title url : Option String)
deriving Repr, DecidableEq

/-- An accumulated album record `{'id': aid, 'name': name, 'url': url}`. -/
structure Album where
  id : Option Nat
  name : Option String
  url : Option String
deriving Repr, DecidableEq

/-- Field extraction for one raw album (src/temp.py lines 226-233); the
attribute shape reads `getattr(a, "name", None) or getattr(a, "title", None)`. -/
def extract_album : RawAlbumItem → Option Nat × Option String × Option String
  | .dictItem i n u => (i, n, u)
  | .attrItem i n t u => (i, pyOrS n t, u)

/-- The `for a in page_albums` loop (src/temp.py lines 224-237): append when
the name is truthy, and break once `len(albums) >= limit`. -/
def albums_page_loop (limit : Nat) : List RawAlbumItem → List Album → List Album
  | [], acc => acc
  | a :: rest, acc =>
    let f := extract_album a
    let acc2 := if truthyS f.2.1 then acc ++ [(⟨f.1, f.2.1, f.2.2⟩ : Album)] else acc
    if limit ≤ acc2.length then acc2 else albums_page_loop limit rest acc2

/-- The `while len(albums) < limit` paging loop of `fetch_artist_albums`
(src/temp.py lines 214-241).  `fuel` bounds the number of iterations the
model unfolds (the source loop has no own bound and relies on the upstream
service to eventually send a short page); the second component is the list of
page numbers actually requested, in order.  A raised page request breaks out
of the loop keeping the accumulated albums; an empty or short
(`< per_page = 50`) page is the last one. -/
def artist_albums_loop (f : Nat → Except Unit (Option (List RawAlbumItem))) (limit : Nat) :
    Nat → Nat → List Album → List Album × List Nat
  | 0, _, acc => (acc, [])
  | fuel+1, page, acc =>
    if acc.length < limit then
      match f page with
      | .error _ => (acc, [page])
      | .ok pageAlbums =>
        if truthyL pageAlbums then
          let pa := pageAlbums.getD []
          let acc2 := albums_page_loop limit pa acc
          if pa.length < 50 then (acc2, [page])
          else
            let r := artist_albums_loop f limit fuel (page+1) acc2
            (r.1, page :: r.2)
        else (acc, [page])
    else (acc, [])

/-- `fetch_artist_albums` (src/temp.py lines 200-245): when the client has no
`artist_albums` method the function returns `[]` at once (no page
requested). -/
def fetch_artist_albums (cap : Option (Nat → Except Unit (Option (List RawAlbumItem))))
    (limit fuel : Nat) : List Album × List Nat :=
  match cap with
  | some f => artist_albums_loop f limit fuel 1 []
  | none => ([], [])

/-! Paginated artist-songs fetch (`fetch_artist_songs`, src/temp.py lines
298-344 = src/MusicSearch_ver2.py lines 282-328). -/

/-- The value stored under the `album` key of a song row: a string (the album
name) or some non-string object (possible on the `search_artist` fallback
path, where `getattr(s, "album", None)` can be an object). -/
inductive AlbumFieldVal
  | strVal (v : String)
  | objVal
deriving Repr, DecidableEq

/-- One raw song of an `artist_songs` page.  The `album` field models
`s.get("album")` after the guard of src/temp.py lines 322-325: `some name`
when the value was a truthy dict (whose `name` key is `name`), `none`
otherwise. -/
structure RawSong where
  title : Option String
  primary_artist : Option Prim
  url : Option String
  album : Option (Option String)
deriving Repr, DecidableEq

/-- One accumulated song row with keys `title`, `artist`, `url`, `album`. -/
structure SongRow where
  title : Option String
  artist : Option String
  url : Option String
  album : Option AlbumFieldVal
deriving Repr, DecidableEq

/-- Normalization of one raw song (src/temp.py lines 318-326). -/
def raw_song_row (s : RawSong) : SongRow :=
  ⟨s.title, primName s.primary_artist, s.url,
    (s.album.join).map AlbumFieldVal.strVal⟩

/-- A song of the `search_artist(..., get_full_info=True)` fallback
(src/temp.py lines 340-341): plain `getattr` reads. -/
structure ObjSong where
  title : Option String
  artist : Option String
  url : Option String
  album : Option AlbumFieldVal
deriving Repr, DecidableEq

def obj_song_row (s : ObjSong) : SongRow :=
  ⟨s.title, s.artist, s.url, s.album⟩

/-- The `artist_full` object of a `search_artist` call: optional `songs`
list. -/
structure ArtistFull where
  songs : Option (List ObjSong)

/-- Client capabilities used by `fetch_artist_songs` and the artist-songs
fallbacks of `handle_artist_search`: the paged `artist_songs` oracle (absent
when the client has no such method) and the outcome of
`search_artist(..., get_full_info=True)`. -/
structure SongsClient where
  artist_songs : Option (Nat → Except Unit (Option (List RawSong)))
  search_artist_full : Except Unit (Option ArtistFull)

/-- The `for s in page_songs` loop (src/temp.py lines 318-328): every row is
appended, then break once `len(songs) >= limit`. -/
def songs_page_loop (limit : Nat) : List RawSong → List SongRow → List SongRow
  | [], acc => acc
  | s :: rest, acc =>
    let acc2 := acc ++ [raw_song_row s]
    if limit ≤ acc2.length then acc2 else songs_page_loop limit rest acc2

/-- The `while len(songs) < limit` paging loop of `fetch_artist_songs`
(src/temp.py lines 309-333), instrumented like `artist_albums_loop`. -/
def artist_songs_loop (f : Nat → Except Unit (Option (List RawSong))) (limit : Nat) :
    Nat → Nat → List SongRow → List SongRow × List Nat
  | 0, _, acc => (acc, [])
  | fuel+1, page, acc =>
    if acc.length < limit then
      match f page with
      | .error _ => (acc, [page])
      | .ok pageSongs =>
        if truthyL pageSongs then
          let ps := pageSongs.getD []
          let acc2 := songs_page_loop limit ps acc
          if ps.length < 50 then (acc2, [page])
          else
            let r := artist_songs_loop f limit fuel (page+1) acc2
            (r.1, page :: r.2)
        else (acc, [page])
    else (acc, [])

/-- The rows produced from a `search_artist(..., get_full_info=True)` outcome
(src/temp.py lines 336-344): a raised call returns the accumulated `songs`
(still `[]` there), a falsy artist or falsy `songs` attribute yields `[]`. -/
def artist_full_rows : Except Unit (Option ArtistFull) → List SongRow
  | .error _ => []
  | .ok none => []
  | .ok (some af) =>
    match af.songs with
    | some l => if l.isEmpty then [] else l.map obj_song_row
    | none => []

/-- `fetch_artist_songs` (src/temp.py lines 298-344). -/
def fetch_artist_songs (sc : SongsClient) (limit fuel : Nat) : List SongRow × List Nat :=
  match sc.artist_songs with
  | some f => artist_songs_loop f limit fuel 1 []
  | none => (artist_full_rows sc.search_artist_full, [])

/-! Scraping fallback (`scrape_artist_albums_from_url`, src/temp.py lines
509-608).  The fetched-and-parsed page is modelled as the projection of the
BeautifulSoup document the function inspects: the anchors found inside
class-matched containers (one list per matched container, in the order
`soup.find_all` yields them over the keyword list of line 544), and all
anchors of the document in document order.  A network error or a parse error
is `Except.error`; a response with a status code is `Except.ok`. -/

/-- One `<a href=...>` anchor: its `href`, its `get_text(" ", strip=True)`
value, and the `get_text` of its parent element when it has one. -/
structure Anchor where
  href : String
  text : String
  parent_text : Option String
deriving Repr, DecidableEq

/-- One fetched page: HTTP status and the anchor projections described
above. -/
structure Page where
  status : Nat
  section_anchor_lists : List (List Anchor)
  all_anchors : List Anchor
deriving Repr, DecidableEq

/-- One scraped album `{'id': None, 'name': name, 'url': full}`; the name is
always non-empty (empty ones are skipped on line 599-600). -/
structure ScrapedAlbum where
  name : String
  url : String
deriving Repr, DecidableEq

/-- Case-insensitive prefix test against an already-lowercase pattern. -/
def starts_with_lower : List Char → List Char → Bool
  | [], _ => true
  | _ :: _, [] => false
  | p :: ps, c :: cs => (c.toLower = p) && starts_with_lower ps cs

/-- Plain prefix test on character lists. -/
def starts_with_chars : List Char → List Char → Bool
  | [], _ => true
  | _ :: _, [] => false
  | p :: ps, c :: cs => (p = c) && starts_with_chars ps cs

/-- Python substring containment `pat in l` on character lists. -/
def list_infix (pat : List Char) : List Char → Bool
  | [] => pat.isEmpty
  | c :: rest => starts_with_chars pat (c :: rest) || list_infix pat rest

/-- Whether the regexes of src/temp.py lines 529-530 match at this position:
`/albums/` (case-insensitively), then at least one non-slash character, then
either a slash followed by at least one character (`/albums/[^/]+/.+`) or the
end of the string (`/albums/[^/]+$`). -/
def album_href_at (l : List Char) : Bool :=
  starts_with_lower ([ '/', 'a', 'l', 'b', 'u', 'm', 's', '/' ]) l &&
    (let r := l.drop 8
     let a := r.takeWhile (fun c => c ≠ '/')
     decide (1 ≤ a.length) &&
       (decide (a.length + 2 ≤ r.length) || decide (r.length = a.length)))

/-- `re.search` over all start positions for `album_href_at`. -/
def album_href_scan : List Char → Bool
  | [] => false
  | c :: rest => album_href_at (c :: rest) || album_href_scan rest

/-- The combined test `href_album_re.search(href) or href_alt_re.search(href)`
(src/temp.py lines 553 and 577). -/
def matches_album_href (href : String) : Bool :=
  album_href_scan href.toList

/-- Whether the characters after a `|` qualify as the `\s*Genius.*$` tail of
the site-name suffix regex of line 564. -/
def genius_bar_ok (l : List Char) : Bool :=
  starts_with_lower ([ 'g', 'e', 'n', 'i', 'u', 's' ]) (l.dropWhile Char.isWhitespace)

/-- Scanner for the leftmost match of the suffix regex; `kept` is the
reversed list of characters before the current position.  On a match the
whitespace that the leading `\s*` of the pattern would absorb is dropped. -/
def strip_genius_aux (kept : List Char) : List Char → List Char
  | [] => kept.reverse
  | c :: rest =>
    if c = '|' && genius_bar_ok rest then (kept.dropWhile Char.isWhitespace).reverse
    else strip_genius_aux (c :: kept) rest

/-- `re.sub(r'\s*\|\s*Genius.*$', '', s, flags=re.I)` (src/temp.py line 564):
everything from the first `|` that is followed (after whitespace) by
`Genius` is removed, together with the whitespace before the bar. -/
def strip_genius_suffix (s : String) : String :=
  String.mk (strip_genius_aux [] s.toList)

/-- `re.sub(r'\s*\(\d+\s*tracks?\)\s*$', '', s, flags=re.I)` (src/temp.py
line 565): a trailing track-count annotation such as `(12 tracks)` is
removed, parsing the string from its end. -/
def strip_tracks_suffix (s : String) : String :=
  let r1 := s.toList.reverse.dropWhile Char.isWhitespace
  match r1 with
  | ')' :: r2 =>
    let r3 := match r2 with
      | c :: rest => if c.toLower = 's' then rest else r2
      | [] => r2
    if starts_with_lower ([ 'k', 'c', 'a', 'r', 't' ]) r3 then
      let r4 := (r3.drop 5).dropWhile Char.isWhitespace
      let digits := r4.takeWhile Char.isDigit
      if digits.isEmpty then s
      else
        match r4.drop digits.length with
        | '(' :: r6 => String.mk ((r6.dropWhile Char.isWhitespace).reverse)
        | _ => s
    else s
  | _ => s

/-- `re.sub(r'^\d+\.\s*', '', s)` (src/temp.py line 598): a leading ordinal
such as `3. ` is removed. -/
def strip_lead_ordinal (s : String) : String :=
  let l := s.toList
  let d := l.takeWhile Char.isDigit
  if d.isEmpty then s
  else
    match l.drop d.length with
    | '.' :: rest => String.mk (rest.dropWhile Char.isWhitespace)
    | _ => s

/-- `s.rstrip("/")`. -/
def rstrip_slashes (s : String) : String :=
  String.mk ((s.toList.reverse.dropWhile (fun c => c = '/')).reverse)

/-- The slug fallback of src/temp.py lines 592-597: the last path segment of
the URL with `-` and `_` replaced by spaces, stripped. -/
def slug_from_url (full : String) : String :=
  let cs := (rstrip_slashes full).toList
  let seg := (cs.reverse.takeWhile (fun c => c ≠ '/')).reverse
  py_strip (String.mk (seg.map (fun c => if c = '-' ∨ c = '_' then ' ' else c)))

/-- Scheme splitter for `url_origin`: the characters up to and including the
first `://`, and the rest. -/
def url_scheme_split : List Char → Option (List Char × List Char)
  | [] => none
  | ':' :: '/' :: '/' :: rest => some ([ ':', '/', '/' ], rest)
  | c :: rest => (url_scheme_split rest).map (fun pr => (c :: pr.1, pr.2))

/-- The `scheme://host` part of an absolute URL. -/
def url_origin (u : String) : String :=
  match url_scheme_split u.toList with
  | some pr => String.mk (pr.1 ++ pr.2.takeWhile (fun c => c ≠ '/'))
  | none => String.mk []

/-- The path characters up to and including the last `/` (empty when the
path has no slash). -/
def drop_last_segment (path : List Char) : List Char :=
  (path.reverse.dropWhile (fun c => c ≠ '/')).reverse

/-- Kernel-reducible prefix test on strings. -/
def str_starts (pat s : String) : Bool :=
  starts_with_chars pat.toList s.toList

/-- Model of `urllib.parse.urljoin(base, href)` for the shapes the scraper
meets: an absolute `http(s)` href is kept, a root-relative href is joined to
the origin of the base, and a relative href replaces the last path segment of
the base.  Query strings, fragments and dot segments are not modelled. -/
def urljoin (base href : String) : String :=
  if str_starts ("http://") href || str_starts ("https://") href then href
  else if str_starts ("/") href then url_origin base ++ href
  else
    let o := url_origin base
    let path := base.toList.drop o.length
    let dir := drop_last_segment path
    o ++ String.mk (if dir.isEmpty then [ '/' ] else dir) ++ href

/-- Number of whitespace-separated words (`len(s.split())`). -/
def count_words : Bool → List Char → Nat
  | _, [] => 0
  | inWord, c :: rest =>
    if c.isWhitespace then count_words false rest
    else (if inWord then 0 else 1) + count_words true rest

/-- Number of whitespace-separated words (`len(s.split())`). -/
def word_count (s : String) : Nat :=
  count_words false s.toList

/-- The cleaning applied to an anchor text at collection time (src/temp.py
lines 564-565 and 582-583): strip the `| Genius...` site suffix, strip, strip
the `(N tracks)` annotation, strip. -/
def clean_anchor_text (t : String) : String :=
  py_strip (strip_tracks_suffix (py_strip (strip_genius_suffix t)))

/-- Processing of one anchor in the class-matched-container pass (src/temp.py
lines 551-567): trim the href, keep it only when it matches the album URL
pattern and its joined form is unseen; an empty or one-word text is replaced
by the parent's text before cleaning. -/
def section_anchor_step (u : String) (a : Anchor) (seen : List String) :
    Option (String × String) :=
  let href := py_strip a.href
  if matches_album_href href then
    let full := urljoin u href
    if full ∈ seen then none
    else
      let t0 := a.text
      let t1 :=
        if str_empty t0 || word_count t0 ≤ 1 then
          match a.parent_text with
          | some p => p
          | none => t0
        else t0
      some (clean_anchor_text t1, full)
  else none

/-- Processing of one anchor in the whole-page pass (src/temp.py lines
575-583): same as above without the parent-text heuristic. -/
def page_anchor_step (u : String) (a : Anchor) (seen : List String) :
    Option (String × String) :=
  let href := py_strip a.href
  if matches_album_href href then
    let full := urljoin u href
    if full ∈ seen then none
    else some (clean_anchor_text a.text, full)
  else none

/-- The anchor loop over one class-matched container (src/temp.py lines
551-569), accumulating `(title_text, full)` pairs and the `seen_urls` set
(modelled as a list), breaking once `len(anchors) >= max_albums`. -/
def section_anchors_inner (u : String) (max_albums : Nat) :
    List Anchor → List (String × String) → List String →
    List (String × String) × List String
  | [], pairs, seen => (pairs, seen)
  | a :: rest, pairs, seen =>
    match section_anchor_step u a seen with
    | none => section_anchors_inner u max_albums rest pairs seen
    | some pr =>
      let pairs2 := pairs ++ [pr]
      let seen2 := seen ++ [pr.2]
      if max_albums ≤ pairs2.length then (pairs2, seen2)
      else section_anchors_inner u max_albums rest pairs2 seen2

/-- The loop over all class-matched containers (src/temp.py lines 549-571),
re-checking the cap after each container. -/
def section_anchors_outer (u : String) (max_albums : Nat) :
    List (List Anchor) → List (String × String) → List String →
    List (String × String) × List String
  | [], pairs, seen => (pairs, seen)
  | secl :: rest, pairs, seen =>
    let r := section_anchors_inner u max_albums secl pairs seen
    if max_albums ≤ r.1.length then r
    else section_anchors_outer u max_albums rest r.1 r.2

/-- The whole-page anchor loop (src/temp.py lines 574-587), run only when the
container pass produced no anchors. -/
def page_anchors_loop (u : String) (max_albums : Nat) :
    List Anchor → List (String × String) → List String →
    List (String × String) × List String
  | [], pairs, seen => (pairs, seen)
  | a :: rest, pairs, seen =>
    match page_anchor_step u a seen with
    | none => page_anchors_loop u max_albums rest pairs seen
    | some pr =>
      let pairs2 := pairs ++ [pr]
      let seen2 := seen ++ [pr.2]
      if max_albums ≤ pairs2.length then (pairs2, seen2)
      else page_anchors_loop u max_albums rest pairs2 seen2

/-- The display name the post-processing loop derives for one collected pair
(src/temp.py lines 590-598): slug fallback when the cleaned text is empty,
then the leading ordinal is stripped. -/
def post_anchor_name (pr : String × String) : String :=
  let t := if str_empty pr.1 then slug_from_url pr.2 else pr.1
  py_strip (strip_lead_ordinal t)

/-- The post-processing loop (src/temp.py lines 590-603): skip pairs whose
derived name is empty, append the rest to `found_albums`, break once
`len(found_albums) >= max_albums`. -/
def scrape_post_loop (max_albums : Nat) :
    List (String × String) → List ScrapedAlbum → List ScrapedAlbum
  | [], found => found
  | pr :: rest, found =>
    let nm := post_anchor_name pr
    if str_empty nm then scrape_post_loop max_albums rest found
    else
      let found2 := found ++ [(⟨nm, pr.2⟩ : ScrapedAlbum)]
      if max_albums ≤ found2.length then found2
      else scrape_post_loop max_albums rest found2

/-- The body of one candidate-URL iteration once a 200 page is parsed
(src/temp.py lines 540-603): container pass, whole-page pass when that found
nothing, then post-processing into `found_albums`. -/
def process_variant (u : String) (max_albums : Nat) (page : Page)
    (found : List ScrapedAlbum) (seen : List String) :
    List ScrapedAlbum × List String :=
  let sp := section_anchors_outer u max_albums page.section_anchor_lists [] seen
  let ap := if sp.1.isEmpty then page_anchors_loop u max_albums page.all_anchors [] sp.2
            else sp
  (scrape_post_loop max_albums ap.1 found, ap.2)

/-- Whether a fetch outcome is skipped by src/temp.py lines 533-538: the
request raised, or the status is not 200. -/
def fetch_failed : Except Unit Page → Bool
  | .error _ => true
  | .ok p => p.status ≠ 200

/-- The `for url in candidate_urls` loop of `scrape_artist_albums_from_url`
(src/temp.py lines 532-606); the second component is the list of URLs
actually requested, in order.  The loop breaks as soon as `found_albums` is
non-empty after a variant. -/
def scrape_loop (fetch : String → Except Unit Page) (max_albums : Nat) :
    List String → List ScrapedAlbum → List String → List ScrapedAlbum × List String
  | [], found, _ => (found, [])
  | u :: rest, found, seen =>
    match fetch u with
    | .error _ =>
      let r := scrape_loop fetch max_albums rest found seen
      (r.1, u :: r.2)
    | .ok page =>
      if page.status ≠ 200 then
        let r := scrape_loop fetch max_albums rest found seen
        (r.1, u :: r.2)
      else
        let pv := process_variant u max_albums page found seen
        if pv.1.isEmpty then
          let r := scrape_loop fetch max_albums rest pv.1 pv.2
          (r.1, u :: r.2)
        else (pv.1, [u])

/-- The candidate URL variants of src/temp.py lines 520-524. -/
def scrape_variants (artist_url : String) : List String :=
  let base := rstrip_slashes artist_url
  [base, base ++ ("/albums"), base ++ ("/discography")]

/-- `scrape_artist_albums_from_url` (src/temp.py lines 509-608). -/
def scrape_artist_albums_from_url (fetch : String → Except Unit Page)
    (artist_url : String) (max_albums : Nat) : List ScrapedAlbum × List String :=
  scrape_loop fetch max_albums (scrape_variants artist_url) [] []

/-! Artist-browse orchestration (`search_artist_and_list_albums`, src/temp.py
lines 347-402, and the album-songs cascade inside `handle_artist_search`,
src/temp.py lines 611-704). -/

/-- The artist object returned by `search_artist(..., max_songs=0)`: either a
dict or an attribute-bearing object (`isDict` distinguishes them, which
matters because `handle_artist_search` reads the id with `getattr`, which is
`None` on a dict), with optional `id` and `url`. -/
structure ArtistMeta where
  isDict : Bool
  id : Option Nat
  url : Option String
deriving Repr, DecidableEq

/-- Client capabilities used by `search_artist_and_list_albums`: the outcome
of the metadata lookup `search_artist(artist_name, max_songs=0)` and the
paged `artist_albums` oracle handed to `fetch_artist_albums`. -/
structure ArtistClient where
  search_artist_meta : Except Unit (Option ArtistMeta)
  artist_albums : Option (Nat → Except Unit (Option (List RawAlbumItem)))

/-- `re.sub(r'[^A-Za-z0-9\s\-]', '', name)` (src/temp.py line 388). -/
def sanitize_slug_chars (s : String) : String :=
  String.mk (s.toList.filter (fun c => c.isAlphanum || c.isWhitespace || c = '-'))

/-- `re.sub(r'\s+', '-', s)`: every whitespace run becomes one dash. -/
def collapse_ws_dash : Bool → List Char → List Char
  | _, [] => []
  | inRun, c :: rest =>
    if c.isWhitespace then
      if inRun then collapse_ws_dash true rest
      else '-' :: collapse_ws_dash true rest
    else c :: collapse_ws_dash false rest

/-- The crafted artist-page URL of src/temp.py lines 386-390: `none` when the
sanitized slug is empty. -/
def craft_artist_url (artist_name : String) : Option String :=
  let slug0 := py_strip (sanitize_slug_chars artist_name)
  let slug := String.mk (collapse_ws_dash false slug0.toList)
  if str_empty slug then none else some (("https://genius.com/artists/") ++ slug)

/-- The primary API album listing of the artist browse (src/temp.py lines
370-374): `fetch_artist_albums` when an artist id could be extracted, `[]`
otherwise (`fetch_artist_albums` never raises, so the `except` arm is
dead). -/
def api_albums_for (c : ArtistClient) (max_albums_fetch fuel : Nat) (m : ArtistMeta) :
    List Album :=
  match m.id with
  | some _ => (fetch_artist_albums c.artist_albums max_albums_fetch fuel).1
  | none => []

/-- `search_artist_and_list_albums` (src/temp.py lines 347-402).  The result
carries the artist metadata, the album list, and whether the scraping
resolver was invoked (the call on line 394, reached exactly when the API
listing was empty and an artist URL — from the metadata or crafted from the
name — is available).  When the scrape yields nothing the album list stays
as the (empty) API result. -/
def search_artist_and_list_albums (c : ArtistClient) (fetchHtml : String → Except Unit Page)
    (artist_name : String) (max_albums_fetch fuel : Nat) :
    Except String (Option ArtistMeta × List Album × Bool) :=
  match c.search_artist_meta with
  | .error _ => .error ("Artist search failed")
  | .ok none => .ok (none, [], false)
  | .ok (some meta) =>
    let apiAlbums := api_albums_for c max_albums_fetch fuel meta
    if apiAlbums.isEmpty then
      let au := pyOrS meta.url (craft_artist_url artist_name)
      if truthyS au then
        let scraped := (scrape_artist_albums_from_url fetchHtml (au.getD ("")) max_albums_fetch).1
        let albums :=
          if scraped.isEmpty then apiAlbums
          else scraped.map (fun s => (⟨none, some s.name, some s.url⟩ : Album))
        .ok (some meta, albums, true)
      else .ok (some meta, apiAlbums, false)
    else .ok (some meta, apiAlbums, false)

/-- A song candidate of the album cascade of `handle_artist_search`, tagged
with the branch that produced it: the album-endpoint fetch, the album-page
scrape (whose items are album-shaped dicts reused as songs, src/temp.py line
646), or the filtered artist-songs fallback. -/
inductive CascadeSong
  | endpointSong (s : SongRec)
  | scrapedItem (a : ScrapedAlbum)
  | filteredSong (s : SongRec)
deriving Repr, DecidableEq

/-- The filter of the artist-songs fallback (src/temp.py lines 667-672): keep
rows whose `album` field is a truthy string containing the album name
case-insensitively, projected to `title`/`artist`/`url`. -/
def filter_rows_by_album (album_name : Option String) (rows : List SongRow) :
    List SongRec :=
  rows.filterMap (fun s =>
    match s.album with
    | some (.strVal v) =>
      if !str_empty v then
        match album_name with
        | some an =>
          if !str_empty an && list_infix (py_lower an).toList (py_lower v).toList then
            some (⟨s.title, s.artist, s.url⟩ : SongRec)
          else none
        | none => none
      else none
    | _ => none)

/-- The song-resolution cascade of `handle_artist_search` after an album was
selected (src/temp.py lines 635-676): the album-endpoint fetch, then — only
when that was empty and the album has a URL — the album-page scrape, then —
only when still empty — the artist-songs filter fallback.  The two booleans
record whether the scrape and the filter fallback were invoked. -/
def album_songs_cascade (ac : AlbumClient) (fetchHtml : String → Except Unit Page)
    (sc : SongsClient) (artist_obj : Option ArtistMeta)
    (album_url album_name : Option String) (fuel : Nat) :
    List CascadeSong × Bool × Bool :=
  let songs1 := (fetch_album_songs ac).map CascadeSong.endpointSong
  let scrapeInv := songs1.isEmpty && truthyS album_url
  let songs2 :=
    if songs1.isEmpty && truthyS album_url then
      ((scrape_artist_albums_from_url fetchHtml (album_url.getD ("")) 200).1).map
        CascadeSong.scrapedItem
    else songs1
  if songs2.isEmpty then
    let artist_id :=
      match artist_obj with
      | some m => if m.isDict then none else m.id
      | none => none
    let rows :=
      match artist_id with
      | some _ => (fetch_artist_songs sc 500 fuel).1
      | none => artist_full_rows sc.search_artist_full
    ((filter_rows_by_album album_name rows).map CascadeSong.filteredSong, scrapeInv, true)
  else (songs2, scrapeInv, false)

/-! Concrete fixtures used by the witness and counterexample theorems
below. -/

/-- A fully valid hit with the given title, artist and url. -/
def mk_hit (t a u : String) : Hit :=
  ⟨some ⟨some t, some ⟨some a⟩, some u⟩⟩

/-- A response with two valid hits that share a url but differ in title. -/
def lyr_resp_dup : LyricsResp :=
  ⟨some [⟨some [mk_hit ("A") ("X") ("u"), mk_hit ("B") ("X") ("u")]⟩]⟩

/-- The entries `search_by_lyrics` produces for `lyr_resp_dup`. -/
def lyr_dup_out : List Entry :=
  [⟨("A"), ("X"), ("u")⟩, ⟨("B"), ("X"), ("u")⟩]

/-- A response whose single hit has neither a title nor a url. -/
def lyr_resp_bad : LyricsResp :=
  ⟨some [⟨some [⟨some ⟨none, some ⟨some ("X")⟩, none⟩⟩]⟩]⟩

/-- The spec's artist-filter scenario: one hit whose artist matches the
filter `Robin Thicke` modulo case, one hit by `Pharrell`. -/
def lyr_resp_artists : LyricsResp :=
  ⟨some [⟨some [mk_hit ("Blurred Lines") ("ROBIN THICKE") ("u1"),
                mk_hit ("Happy") ("Pharrell") ("u2")]⟩]⟩

/-- An album client whose `album(...)` call yields two tracks sharing a
url. -/
def album_client_dup : AlbumClient :=
  ⟨some (.ok (.dictShape
      (some [⟨some ("A"), some ⟨some ("X")⟩, some ("u")⟩,
             ⟨some ("B"), some ⟨some ("X")⟩, some ("u")⟩]) none)), none⟩

/-- Twelve named raw albums (one short page). -/
def twelve_albums : List RawAlbumItem :=
  (List.range 12).map
    (fun i => .dictItem (some i) (some ("Al" ++ toString i)) (some ("u" ++ toString i)))

/-- A page oracle that would serve twelve named albums on every page. -/
def c5_oracle : Nat → Except Unit (Option (List RawAlbumItem)) :=
  fun _ => .ok (some twelve_albums)

def c6_base : String := "https://genius.com/artists/X"

/-- A fetch oracle whose primary variant 404s, whose `/albums` variant has a
single pattern-matching anchor that yields an empty derived name, and whose
`/discography` variant has a good anchor. -/
def c6_fetch : String → Except Unit Page := fun u =>
  if u = c6_base then .ok ⟨404, [], []⟩
  else if u = c6_base ++ ("/albums") then
    .ok ⟨200, [], [⟨("/albums/A/-"), (""), none⟩]⟩
  else if u = c6_base ++ ("/discography") then
    .ok ⟨200, [], [⟨("/albums/A/Good-Album"), ("Good Album (12 tracks)"), none⟩]⟩
  else .error ()

/-- A fetch oracle whose primary variant 404s and whose `/albums` variant has
one good anchor carrying ordinal, track-count and site-name noise. -/
def c6_ok_fetch : String → Except Unit Page := fun u =>
  if u = c6_base then .ok ⟨404, [], []⟩
  else if u = c6_base ++ ("/albums") then
    .ok ⟨200, [], [⟨("/albums/A/Good-Album"), ("1. Good Album (12 tracks) | Genius"), none⟩]⟩
  else .error ()

/-- The page served by `c6_ok_fetch` on the `/albums` variant. -/
def c6_ok_page : Page :=
  ⟨200, [], [⟨("/albums/A/Good-Album"), ("1. Good Album (12 tracks) | Genius"), none⟩]⟩

def c2_meta : ArtistMeta := ⟨false, some 7, some ("https://genius.com/artists/X")⟩

/-- An artist client whose album listing has one named album. -/
def c2_client : ArtistClient :=
  ⟨.ok (some c2_meta),
   some (fun _ => .ok (some [.dictItem (some 1) (some ("Alb")) (some ("u1"))]))⟩

/-! Theorems. -/

/-- A truthy optional string is present. -/
theorem truthyS_ne_none {o : Option String} (h : truthyS o = true) : o ≠ none := by
  cases o with
  | none => simp [truthyS] at h
  | some s => simp

/-- The composite artist fallback of the attribute branch of
`search_by_title` is never `None`. -/
theorem pyOrS_with_present_default (a b : Option String) (s : String) :
    pyOrS a (pyOrS b (some s)) ≠ none := by
  unfold pyOrS
  by_cases h1 : truthyS a = true
  · simp [h1]
    exact truthyS_ne_none h1
  · simp [h1]
    by_cases h2 : truthyS b = true
    · simp [h2]
      exact truthyS_ne_none h2
    · simp [h2]

/-- C9 (counterexample): for a mapping-shaped matched song whose mapping has
no `artist` key, `search_by_title` returns one candidate whose artist field
is `None`, refuting the claim that the artist field is never `None`. -/
theorem c9_counterexample :
    search_by_title (.ok (some (.mapShape (some ("X")) none (some ("u"))))) ("t") none
      = .ok [{ title := some ("X"), artist := none, url := some ("u"),
               song_obj := .mapShape (some ("X")) none (some ("u")) }] := by
  rfl

/-- C9 (amended): the title search returns `[]` exactly when the client
returns no match and otherwise exactly one candidate; for an
attribute-shaped match the candidate's artist is never `None` (it falls back
to the caller-supplied artist or `"Unknown"`), while for a mapping-shaped
match the artist is the raw mapping value and may be `None`; the url may be
`None` in either case. -/
theorem c9_title_search_amended :
    (∀ (t : String) (a : Option String), search_by_title (.ok none) t a = .ok []) ∧
    (∀ (s : SongObj) (t : String) (a : Option String),
      ∃ r, search_by_title (.ok (some s)) t a = .ok [r]) ∧
    (∀ (t0 a0 u0 : Option String) (t : String) (a : Option String),
      ∃ r, search_by_title (.ok (some (.attrShape t0 a0 u0))) t a = .ok [r] ∧
        r.artist ≠ none) := by
  refine ⟨fun t a => rfl, fun s t a => ?_, fun t0 a0 u0 t a => ?_⟩
  · cases s with
    | attrShape t0 a0 u0 => exact ⟨_, rfl⟩
    | mapShape t0 a0 u0 => exact ⟨_, rfl⟩
  · exact ⟨_, rfl, pyOrS_with_present_default a0 a ("Unknown")⟩

/-- C10 (counterexample): on the accepted input line `"00"`, which is a digit
string different from `"0"`, the selection routine still returns `None`
(cancel), refuting the claim that `None` is returned exactly on the digit
string `"0"`. -/
theorem c10_counterexample :
    choose_from_list 5 [("00")] = some none ∧ ("00" : String) ≠ ("0") := by
  exact ⟨by decide, by decide⟩

/-- C10 (amended): for a positive bound, any returned index is below
`max_choice`; the routine returns `None` exactly when the first accepted
input line is a digit string with numeric value zero (for example `"0"` or
`"00"`); and when no input line is accepted (all non-numeric or out of
range), no return value is produced. -/
theorem c10_selection_amended :
    ∀ (max_choice : Nat) (inputs : List String), 0 < max_choice →
      ((∀ i, choose_from_list max_choice inputs = some (some i) → i < max_choice) ∧
       (choose_from_list max_choice inputs = some none ↔
         ∃ s, accepted_line max_choice inputs = some s ∧ digits_to_nat (py_strip s) = 0) ∧
       (accepted_line max_choice inputs = none →
         choose_from_list max_choice inputs = none)) := by
  intro maxc inputs hpos
  induction inputs with
  | nil =>
    refine ⟨?_, ?_, ?_⟩ <;> simp [choose_from_list, accepted_line]
  | cons line rest ih =>
    by_cases hd : is_digits (py_strip line)
    · by_cases h0 : digits_to_nat (py_strip line) = 0
      · have hch : choose_from_list maxc (line :: rest) = some none := by
          simp [choose_from_list, hd, h0]
        have hacc : accepted_line maxc (line :: rest) = some line := by
          simp [accepted_line, List.find?_cons_of_pos, accepts, hd, h0]
        refine ⟨?_, ?_, ?_⟩
        · intro i hi
          rw [hch] at hi
          simp at hi
        · rw [hch, hacc]
          simp [h0]
        · rw [hacc]
          intro h
          simp at h
      · by_cases hr : digits_to_nat (py_strip line) ≤ maxc
        · have h1 : 1 ≤ digits_to_nat (py_strip line) := Nat.one_le_iff_ne_zero.mpr h0
          have hch : choose_from_list maxc (line :: rest)
              = some (some (digits_to_nat (py_strip line) - 1)) := by
            simp [choose_from_list, hd, h0, h1, hr]
          have hacc : accepted_line maxc (line :: rest) = some line := by
            simp [accepted_line, List.find?_cons_of_pos, accepts, hd, h0, h1, hr]
          refine ⟨?_, ?_, ?_⟩
          · intro i hi
            rw [hch] at hi
            simp at hi
            omega
          · rw [hch, hacc]
            constructor
            · intro h
              simp at h
            · rintro ⟨s, hs, hzero⟩
              simp at hs
              subst hs
              exact absurd hzero h0
          · rw [hacc]
            intro h
            simp at h
        · have hch : choose_from_list maxc (line :: rest)
              = choose_from_list maxc rest := by
            have : ¬ (1 ≤ digits_to_nat (py_strip line) ∧ digits_to_nat (py_strip line) ≤ maxc) := by
              omega
            simp [choose_from_list, hd, h0, this]
          have hacc : accepted_line maxc (line :: rest) = accepted_line maxc rest := by
            have : accepts maxc line = false := by
              simp [accepts, hd, h0, hr]
            simp [accepted_line, List.find?_cons_of_neg, this]
          rw [hch, hacc]
          exact ih
    · have hch : choose_from_list maxc (line :: rest) = choose_from_list maxc rest := by
        simp [choose_from_list, hd]
      have hacc : accepted_line maxc (line :: rest) = accepted_line maxc rest := by
        have : accepts maxc line = false := by
          simp [accepts, hd]
        simp [accepted_line, List.find?_cons_of_neg, this]
      rw [hch, hacc]
      exact ih

/-- Witness for C10: instantiating the amended theorem at bound 5 on the
input lines `["abc", "9", "3"]`: the non-numeric and out-of-range lines are
skipped and the returned index 2 is below the bound. -/
theorem c10_witness :
    0 < 5 ∧ (∀ i, choose_from_list 5 [("abc"), ("9"), ("3")] = some (some i) → i < 5) :=
  ⟨by decide, (c10_selection_amended 5 [("abc"), ("9"), ("3")] (by decide)).1⟩

/-- C3 (counterexample): a record whose title and url are both unobtainable
is silently skipped by the lyrics search — the call returns normally with an
empty list and raises nothing, refuting the claim that a `NormalizationError`
is raised exactly when both title and url are unobtainable (no such
exception exists in the code). -/
theorem c3_counterexample :
    search_by_lyrics (.ok lyr_resp_bad) none 10 = .ok [] := by
  rfl

/-- C3 (amended): the inline normalization never raises for any record
shape: once the client call itself has succeeded, the lyrics search always
returns normally (records with missing required fields are skipped), and the
album-songs fetch returns records with missing fields as `None` values
without raising. -/
theorem c3_normalizer_total_amended :
    (∀ (r : LyricsResp) (af : Option String) (n : Nat),
      ∃ l, search_by_lyrics (.ok r) af n = .ok l) ∧
    (∀ t : TrackD,
      fetch_album_songs ⟨some (.ok (.dictShape (some [t]) none)), none⟩
        = [track_d_rec t]) := by
  refine ⟨fun r af n => ⟨_, rfl⟩, fun t => rfl⟩

/-- The inner hit loop only ever appends entries, and the appended entries
form a subsequence of the normalized valid hits, in hit order. -/
theorem lyrics_hits_loop_append (af : Option String) (maxr : Nat) :
    ∀ (hs : List Hit) (res : List Entry),
      ∃ t, lyrics_hits_loop af maxr hs res = res ++ t ∧
        t.Sublist (hs.filterMap entry_of_hit) := by
  intro hs
  induction hs with
  | nil => intro res; exact ⟨[], by simp [lyrics_hits_loop]⟩
  | cons h hs ih =>
    intro res
    cases he : entry_of_hit h with
    | none =>
      have hfm : (h :: hs).filterMap entry_of_hit = hs.filterMap entry_of_hit := by
        simp [List.filterMap_cons, he]
      by_cases hl : maxr ≤ res.length
      · exact ⟨[], by simp [lyrics_hits_loop, he, hl], by rw [hfm]; exact List.nil_sublist _⟩
      · obtain ⟨t, ht, hsub⟩ := ih res
        exact ⟨t, by simp [lyrics_hits_loop, he, hl, ht], by rw [hfm]; exact hsub⟩
    | some entry =>
      have hfm : (h :: hs).filterMap entry_of_hit = entry :: hs.filterMap entry_of_hit := by
        simp [List.filterMap_cons, he]
      by_cases hrej : artist_filter_rejects af entry.artist
      · obtain ⟨t, ht, hsub⟩ := ih res
        exact ⟨t, by simp [lyrics_hits_loop, he, hrej, ht], by rw [hfm]; exact hsub.cons entry⟩
      · by_cases hmem : entry ∈ res
        · by_cases hl : maxr ≤ res.length
          · exact ⟨[], by simp [lyrics_hits_loop, he, hrej, hmem, hl],
              by rw [hfm]; exact List.nil_sublist _⟩
          · obtain ⟨t, ht, hsub⟩ := ih res
            exact ⟨t, by simp [lyrics_hits_loop, he, hrej, hmem, hl, ht],
              by rw [hfm]; exact hsub.cons entry⟩
        · by_cases hl : maxr ≤ res.length + 1
          · refine ⟨[entry], by simp [lyrics_hits_loop, he, hrej, hmem, hl], ?_⟩
            rw [hfm]
            exact (List.nil_sublist _).cons₂ entry
          · obtain ⟨t, ht, hsub⟩ := ih (res ++ [entry])
            refine ⟨entry :: t, ?_, ?_⟩
            · simp [lyrics_hits_loop, he, hrej, hmem, hl, ht]
            · rw [hfm]
              exact hsub.cons₂ entry

/-- The section loop only ever appends entries, and the appended entries form
a subsequence of the API-ordered normalized hits. -/
theorem lyrics_sections_loop_append (af : Option String) (maxr : Nat) :
    ∀ (secs : List SearchSection) (res : List Entry),
      ∃ t, lyrics_sections_loop af maxr secs res = res ++ t ∧
        t.Sublist (secs.flatMap (fun sec => (sec.hits.getD []).filterMap entry_of_hit)) := by
  intro secs
  induction secs with
  | nil => intro res; exact ⟨[], by simp [lyrics_sections_loop]⟩
  | cons sec secs ih =>
    intro res
    obtain ⟨t1, ht1, hsub1⟩ := lyrics_hits_loop_append af maxr (sec.hits.getD []) res
    by_cases hl : maxr ≤ res.length + t1.length
    · refine ⟨t1, ?_, ?_⟩
      · simp [lyrics_sections_loop, ht1, hl]
      · simp only [List.flatMap_cons]
        exact hsub1.trans (List.sublist_append_left _ _)
    · obtain ⟨t2, ht2, hsub2⟩ := ih (res ++ t1)
      refine ⟨t1 ++ t2, ?_, ?_⟩
      · simp [lyrics_sections_loop, ht1, hl, ht2]
      · simp only [List.flatMap_cons]
        exact hsub1.append hsub2

/-- The inner hit loop never grows the result beyond the maximum once the
accumulator is below it. -/
theorem lyrics_hits_loop_len (af : Option String) (maxr : Nat) :
    ∀ (hs : List Hit) (res : List Entry), res.length < maxr →
      (lyrics_hits_loop af maxr hs res).length ≤ maxr := by
  intro hs
  induction hs with
  | nil => intro res h; simpa [lyrics_hits_loop] using Nat.le_of_lt h
  | cons h hs ih =>
    intro res hlt
    cases he : entry_of_hit h with
    | none =>
      have hl : ¬ maxr ≤ res.length := Nat.not_le.mpr hlt
      simpa [lyrics_hits_loop, he, hl] using ih res hlt
    | some entry =>
      by_cases hrej : artist_filter_rejects af entry.artist
      · simpa [lyrics_hits_loop, he, hrej] using ih res hlt
      · by_cases hmem : entry ∈ res
        · have hl : ¬ maxr ≤ res.length := Nat.not_le.mpr hlt
          simpa [lyrics_hits_loop, he, hrej, hmem, hl] using ih res hlt
        · by_cases hl : maxr ≤ res.length + 1
          · simp [lyrics_hits_loop, he, hrej, hmem, hl]
            omega
          · have hlt2 : (res ++ [entry]).length < maxr := by
              simp only [List.length_append, List.length_singleton]
              omega
            simpa [lyrics_hits_loop, he, hrej, hmem, hl] using ih (res ++ [entry]) hlt2

/-- The section loop never grows the result beyond the maximum once the
accumulator is below it. -/
theorem lyrics_sections_loop_len (af : Option String) (maxr : Nat) :
    ∀ (secs : List SearchSection) (res : List Entry), res.length < maxr →
      (lyrics_sections_loop af maxr secs res).length ≤ maxr := by
  intro secs
  induction secs with
  | nil => intro res h; simpa [lyrics_sections_loop] using Nat.le_of_lt h
  | cons sec secs ih =>
    intro res hlt
    have hle := lyrics_hits_loop_len af maxr (sec.hits.getD []) res hlt
    by_cases hl : maxr ≤ (lyrics_hits_loop af maxr (sec.hits.getD []) res).length
    · simpa [lyrics_sections_loop, hl] using hle
    · have : (lyrics_hits_loop af maxr (sec.hits.getD []) res).length < maxr :=
        Nat.not_le.mp hl
      simpa [lyrics_sections_loop, hl] using ih _ this

/-- The inner hit loop preserves entry-level distinctness: an entry is only
appended when it is not yet present. -/
theorem lyrics_hits_loop_nodup (af : Option String) (maxr : Nat) :
    ∀ (hs : List Hit) (res : List Entry), res.Nodup →
      (lyrics_hits_loop af maxr hs res).Nodup := by
  intro hs
  induction hs with
  | nil => intro res h; simpa [lyrics_hits_loop] using h
  | cons h hs ih =>
    intro res hnd
    cases he : entry_of_hit h with
    | none =>
      by_cases hl : maxr ≤ res.length
      · simpa [lyrics_hits_loop, he, hl] using hnd
      · simpa [lyrics_hits_loop, he, hl] using ih res hnd
    | some entry =>
      by_cases hrej : artist_filter_rejects af entry.artist
      · simpa [lyrics_hits_loop, he, hrej] using ih res hnd
      · by_cases hmem : entry ∈ res
        · by_cases hl : maxr ≤ res.length
          · simpa [lyrics_hits_loop, he, hrej, hmem, hl] using hnd
          · simpa [lyrics_hits_loop, he, hrej, hmem, hl] using ih res hnd
        · have hnd2 : (res ++ [entry]).Nodup := by
            simp [List.nodup_append, hnd, hmem]
          by_cases hl : maxr ≤ res.length + 1
          · simpa [lyrics_hits_loop, he, hrej, hmem, hl] using hnd2
          · simpa [lyrics_hits_loop, he, hrej, hmem, hl] using ih (res ++ [entry]) hnd2

/-- The section loop preserves entry-level distinctness. -/
theorem lyrics_sections_loop_nodup (af : Option String) (maxr : Nat) :
    ∀ (secs : List SearchSection) (res : List Entry), res.Nodup →
      (lyrics_sections_loop af maxr secs res).Nodup := by
  intro secs
  induction secs with
  | nil => intro res h; simpa [lyrics_sections_loop] using h
  | cons sec secs ih =>
    intro res hnd
    have h1 := lyrics_hits_loop_nodup af maxr (sec.hits.getD []) res hnd
    by_cases hl : maxr ≤ (lyrics_hits_loop af maxr (sec.hits.getD []) res).length
    · simpa [lyrics_sections_loop, hl] using h1
    · simpa [lyrics_sections_loop, hl] using ih _ h1

/-- C4 (counterexample): with maximum result count 0, the length check runs
only after an append, so a single valid hit is still returned — the list has
length 1, exceeding the requested maximum 0 and refuting the claim for
`N = 0`. -/
theorem c4_counterexample :
    search_by_lyrics (.ok lyr_resp_dup) none 0 = .ok [⟨("A"), ("X"), ("u")⟩] ∧
      ¬ (([(⟨("A"), ("X"), ("u")⟩ : Entry)]).length ≤ 0) :=
  ⟨rfl, by decide⟩

/-- C4 (amended): for every snippet query with a positive maximum result
count, the primary-API resolver returns at most that many entries, and the
returned entries appear in the same relative order as the corresponding hits
of the API response (sections in order, hits within each section in
order). -/
theorem c4_bound_order_amended :
    ∀ (r : LyricsResp) (af : Option String) (maxr : Nat) (l : List Entry),
      1 ≤ maxr → search_by_lyrics (.ok r) af maxr = .ok l →
      l.length ≤ maxr ∧ l.Sublist (api_order_entries r) := by
  intro r af maxr l h1 heq
  have hl : l = lyrics_sections_loop af maxr (r.sections.getD []) [] := by
    have : Except.ok (ε := String)
        (lyrics_sections_loop af maxr (r.sections.getD []) []) = .ok l := heq
    exact (Except.ok.injEq _ _ ▸ congrArg (fun x => x) this).symm ▸ by
      cases this
      rfl
  subst hl
  constructor
  · exact lyrics_sections_loop_len af maxr _ [] (by simpa using h1)
  · obtain ⟨t, ht, hsub⟩ := lyrics_sections_loop_append af maxr (r.sections.getD []) []
    rw [ht]
    simpa [api_order_entries] using hsub

/-- Witness for C4: the amended theorem applied to a concrete two-hit
response with maximum 10. -/
theorem c4_witness :
    1 ≤ 10 ∧ (lyr_dup_out.length ≤ 10 ∧
      lyr_dup_out.Sublist (api_order_entries lyr_resp_dup)) :=
  ⟨by decide, c4_bound_order_amended lyr_resp_dup none 10 lyr_dup_out (by decide) rfl⟩

/-- A non-empty string is truthy. -/
theorem truthyS_of_ne (f : String) (h : f ≠ ("")) : truthyS (some f) = true := by
  cases f with
  | mk l =>
    cases l with
    | nil => exact absurd rfl h
    | cons c cs => simp [truthyS, str_empty]

/-- Every entry the inner hit loop emits under a truthy filter has an artist
that matches the filter modulo strip and case. -/
theorem lyrics_hits_loop_filter_sound (f : String) (hf : truthyS (some f) = true)
    (maxr : Nat) :
    ∀ (hs : List Hit) (res : List Entry),
      (∀ e ∈ res, py_lower (py_strip f) = py_lower e.artist) →
      ∀ e ∈ lyrics_hits_loop (some f) maxr hs res,
        py_lower (py_strip f) = py_lower e.artist := by
  intro hs
  induction hs with
  | nil => intro res hres; simpa [lyrics_hits_loop] using hres
  | cons h hs ih =>
    intro res hres
    cases he : entry_of_hit h with
    | none =>
      by_cases hl : maxr ≤ res.length
      · simpa [lyrics_hits_loop, he, hl] using hres
      · simpa [lyrics_hits_loop, he, hl] using ih res hres
    | some entry =>
      by_cases hrej : artist_filter_rejects (some f) entry.artist
      · simpa [lyrics_hits_loop, he, hrej] using ih res hres
      · have hmatch : py_lower (py_strip f) = py_lower entry.artist := by
          have := hrej
          simp [artist_filter_rejects, hf] at this
          simpa using this
        have hres2 : ∀ e ∈ res ++ [entry], py_lower (py_strip f) = py_lower e.artist := by
          intro e hee
          rcases List.mem_append.mp hee with h1 | h1
          · exact hres e h1
          · rcases List.mem_singleton.mp h1 with rfl
            exact hmatch
        by_cases hmem : entry ∈ res
        · by_cases hl : maxr ≤ res.length
          · simpa [lyrics_hits_loop, he, hrej, hmem, hl] using hres
          · simpa [lyrics_hits_loop, he, hrej, hmem, hl] using ih res hres
        · by_cases hl : maxr ≤ res.length + 1
          · simpa [lyrics_hits_loop, he, hrej, hmem, hl] using hres2
          · simpa [lyrics_hits_loop, he, hrej, hmem, hl] using ih (res ++ [entry]) hres2

/-- Every entry the section loop emits under a truthy filter matches the
filter modulo strip and case. -/
theorem lyrics_sections_loop_filter_sound (f : String) (hf : truthyS (some f) = true)
    (maxr : Nat) :
    ∀ (secs : List SearchSection) (res : List Entry),
      (∀ e ∈ res, py_lower (py_strip f) = py_lower e.artist) →
      ∀ e ∈ lyrics_sections_loop (some f) maxr secs res,
        py_lower (py_strip f) = py_lower e.artist := by
  intro secs
  induction secs with
  | nil => intro res hres; simpa [lyrics_sections_loop] using hres
  | cons sec secs ih =>
    intro res hres
    have h1 := lyrics_hits_loop_filter_sound f hf maxr (sec.hits.getD []) res hres
    by_cases hl : maxr ≤ (lyrics_hits_loop (some f) maxr (sec.hits.getD []) res).length
    · simpa [lyrics_sections_loop, hl] using h1
    · simpa [lyrics_sections_loop, hl] using ih _ h1

/-- C8: the artist filter is exact case-insensitive equality of the stripped
strings — the rejection test of line 86 fails exactly on such equality; every
entry returned under a non-empty filter matches the filter in that sense; and
on the spec's scenario the filter `"Robin Thicke"` passes the hit by
`"ROBIN THICKE"` (equal modulo case) and filters out the hit by
`"Pharrell"`. -/
theorem c8_artist_filter_exact :
    (∀ (f a : String), f ≠ ("") →
      (artist_filter_rejects (some f) a = false ↔
        py_lower (py_strip f) = py_lower a)) ∧
    (∀ (r : LyricsResp) (f : String) (maxr : Nat) (l : List Entry) (e : Entry),
      f ≠ ("") → search_by_lyrics (.ok r) (some f) maxr = .ok l → e ∈ l →
      py_lower (py_strip f) = py_lower e.artist) ∧
    (search_by_lyrics (.ok lyr_resp_artists) (some ("Robin Thicke")) 10
      = .ok [⟨("Blurred Lines"), ("ROBIN THICKE"), ("u1")⟩]) := by
  refine ⟨?_, ?_, rfl⟩
  · intro f a hf
    have ht := truthyS_of_ne f hf
    simp [artist_filter_rejects, ht]
  · intro r f maxr l e hf heq hmem
    have hl : l = lyrics_sections_loop (some f) maxr (r.sections.getD []) [] := by
      cases heq
      rfl
    subst hl
    exact lyrics_sections_loop_filter_sound f (truthyS_of_ne f hf) maxr _ []
      (by intro e h; simp at h) e hmem

/-- Witness for C8: the soundness conjunct applied to the scenario response;
the filter differs from the returned artist only in case. -/
theorem c8_witness :
    ("Robin Thicke" : String) ≠ ("") ∧
      py_lower (py_strip ("Robin Thicke")) = py_lower ("ROBIN THICKE") :=
  ⟨by decide,
    c8_artist_filter_exact.2.1 lyr_resp_artists ("Robin Thicke") 10
      [⟨("Blurred Lines"), ("ROBIN THICKE"), ("u1")⟩]
      ⟨("Blurred Lines"), ("ROBIN THICKE"), ("u1")⟩
      (by decide) rfl (by simp)⟩

/-- Once the cumulative limit is reached, the album paging loop requests no
page at all. -/
theorem artist_albums_loop_at_limit (f : Nat → Except Unit (Option (List RawAlbumItem)))
    (limit fuel page : Nat) (acc : List Album) (h : limit ≤ acc.length) :
    artist_albums_loop f limit fuel page acc = (acc, []) := by
  cases fuel with
  | zero => rfl
  | succ k => simp [artist_albums_loop, Nat.not_lt.mpr h]

/-- Once the cumulative limit is reached, the song paging loop requests no
page at all. -/
theorem artist_songs_loop_at_limit (f : Nat → Except Unit (Option (List RawSong)))
    (limit fuel page : Nat) (acc : List SongRow) (h : limit ≤ acc.length) :
    artist_songs_loop f limit fuel page acc = (acc, []) := by
  cases fuel with
  | zero => rfl
  | succ k => simp [artist_songs_loop, Nat.not_lt.mpr h]

/-- C5: both paginated fetchers stop exactly at the three stop conditions.
For each of `fetch_artist_albums` and `fetch_artist_songs`: (1) a raised page
request stops the loop and the items accumulated from earlier pages are
returned, not discarded; (2) an empty page stops the loop; (3) a page shorter
than the page size 50 is processed and then stops the loop; (4) when the
cumulative limit is reached the loop stops even after a full page; (5) after
a full page below the limit the loop continues with exactly the next page
number; and (6) concretely, a page of 12 named items with page size 50 makes
the resolver return those 12 items having requested only page 1. -/
theorem c5_pagination_stops :
    (∀ (f : Nat → Except Unit (Option (List RawAlbumItem))) (limit fuel page : Nat)
        (acc : List Album),
      acc.length < limit → f page = .error () →
      artist_albums_loop f limit (fuel+1) page acc = (acc, [page])) ∧
    (∀ (f : Nat → Except Unit (Option (List RawAlbumItem))) (limit fuel page : Nat)
        (acc : List Album) (pl : Option (List RawAlbumItem)),
      acc.length < limit → f page = .ok pl → truthyL pl = false →
      artist_albums_loop f limit (fuel+1) page acc = (acc, [page])) ∧
    (∀ (f : Nat → Except Unit (Option (List RawAlbumItem))) (limit fuel page : Nat)
        (acc : List Album) (l : List RawAlbumItem),
      acc.length < limit → f page = .ok (some l) → l ≠ [] → l.length < 50 →
      artist_albums_loop f limit (fuel+1) page acc
        = (albums_page_loop limit l acc, [page])) ∧
    (∀ (f : Nat → Except Unit (Option (List RawAlbumItem))) (limit fuel page : Nat)
        (acc : List Album) (l : List RawAlbumItem),
      acc.length < limit → f page = .ok (some l) → l ≠ [] → 50 ≤ l.length →
      limit ≤ (albums_page_loop limit l acc).length →
      artist_albums_loop f limit (fuel+1) page acc
        = (albums_page_loop limit l acc, [page])) ∧
    (∀ (f : Nat → Except Unit (Option (List RawAlbumItem))) (limit fuel page : Nat)
        (acc : List Album) (l : List RawAlbumItem),
      acc.length < limit → f page = .ok (some l) → l ≠ [] → 50 ≤ l.length →
      (albums_page_loop limit l acc).length < limit →
      artist_albums_loop f limit (fuel+1) page acc
        = ((artist_albums_loop f limit fuel (page+1) (albums_page_loop limit l acc)).1,
           page :: (artist_albums_loop f limit fuel (page+1)
                      (albums_page_loop limit l acc)).2)) ∧
    (∀ (f : Nat → Except Unit (Option (List RawSong))) (limit fuel page : Nat)
        (acc : List SongRow),
      acc.length < limit → f page = .error () →
      artist_songs_loop f limit (fuel+1) page acc = (acc, [page])) ∧
    (∀ (f : Nat → Except Unit (Option (List RawSong))) (limit fuel page : Nat)
        (acc : List SongRow) (pl : Option (List RawSong)),
      acc.length < limit → f page = .ok pl → truthyL pl = false →
      artist_songs_loop f limit (fuel+1) page acc = (acc, [page])) ∧
    (∀ (f : Nat → Except Unit (Option (List RawSong))) (limit fuel page : Nat)
        (acc : List SongRow) (l : List RawSong),
      acc.length < limit → f page = .ok (some l) → l ≠ [] → l.length < 50 →
      artist_songs_loop f limit (fuel+1) page acc
        = (songs_page_loop limit l acc, [page])) ∧
    (∀ (f : Nat → Except Unit (Option (List RawSong))) (limit fuel page : Nat)
        (acc : List SongRow) (l : List RawSong),
      acc.length < limit → f page = .ok (some l) → l ≠ [] → 50 ≤ l.length →
      limit ≤ (songs_page_loop limit l acc).length →
      artist_songs_loop f limit (fuel+1) page acc
        = (songs_page_loop limit l acc, [page])) ∧
    (∀ (f : Nat → Except Unit (Option (List RawSong))) (limit fuel page : Nat)
        (acc : List SongRow) (l : List RawSong),
      acc.length < limit → f page = .ok (some l) → l ≠ [] → 50 ≤ l.length →
      (songs_page_loop limit l acc).length < limit →
      artist_songs_loop f limit (fuel+1) page acc
        = ((artist_songs_loop f limit fuel (page+1) (songs_page_loop limit l acc)).1,
           page :: (artist_songs_loop f limit fuel (page+1)
                      (songs_page_loop limit l acc)).2)) ∧
    ((fetch_artist_albums (some c5_oracle) 500 10).1.length = 12 ∧
      (fetch_artist_albums (some c5_oracle) 500 10).2 = [1]) := by
  refine ⟨?_, ?_, ?_, ?_, ?_, ?_, ?_, ?_, ?_, ?_, by decide, by decide⟩
  · intro f limit fuel page acc hlt herr
    simp [artist_albums_loop, hlt, herr]
  · intro f limit fuel page acc pl hlt hok htr
    simp [artist_albums_loop, hlt, hok, htr]
  · intro f limit fuel page acc l hlt hok hne h50
    have ht : truthyL (some l) = true := by
      simp [truthyL, hne]
    simp [artist_albums_loop, hlt, hok, ht, h50]
  · intro f limit fuel page acc l hlt hok hne h50 hlim
    have ht : truthyL (some l) = true := by
      simp [truthyL, hne]
    have h50n : ¬ l.length < 50 := Nat.not_lt.mpr h50
    simp [artist_albums_loop, hlt, hok, ht, h50n,
      artist_albums_loop_at_limit f limit fuel (page+1) _ hlim]
  · intro f limit fuel page acc l hlt hok hne h50 hlim
    have ht : truthyL (some l) = true := by
      simp [truthyL, hne]
    have h50n : ¬ l.length < 50 := Nat.not_lt.mpr h50
    simp [artist_albums_loop, hlt, hok, ht, h50n]
  · intro f limit fuel page acc hlt herr
    simp [artist_songs_loop, hlt, herr]
  · intro f limit fuel page acc pl hlt hok htr
    simp [artist_songs_loop, hlt, hok, htr]
  · intro f limit fuel page acc l hlt hok hne h50
    have ht : truthyL (some l) = true := by
      simp [truthyL, hne]
    simp [artist_songs_loop, hlt, hok, ht, h50]
  · intro f limit fuel page acc l hlt hok hne h50 hlim
    have ht : truthyL (some l) = true := by
      simp [truthyL, hne]
    have h50n : ¬ l.length < 50 := Nat.not_lt.mpr h50
    simp [artist_songs_loop, hlt, hok, ht, h50n,
      artist_songs_loop_at_limit f limit fuel (page+1) _ hlim]
  · intro f limit fuel page acc l hlt hok hne h50 hlim
    have ht : truthyL (some l) = true := by
      simp [truthyL, hne]
    have h50n : ¬ l.length < 50 := Nat.not_lt.mpr h50
    simp [artist_songs_loop, hlt, hok, ht, h50n]

/-- Witness for C5: the failure conjunct applied to an oracle that raises on
page 1 with an empty accumulator — the accumulated (empty) list is returned
and only page 1 was requested. -/
theorem c5_witness :
    (([] : List Album).length < 500) ∧
      artist_albums_loop (fun _ => .error ()) 500 4 1 [] = ([], [1]) :=
  ⟨by decide, c5_pagination_stops.1 (fun _ => .error ()) 500 3 1 [] (by decide) rfl⟩

/-- C2: the artist-browse cascade advances exactly on emptiness.  In
`search_artist_and_list_albums`: a non-empty primary album listing means the
scraping resolver is never invoked, and an empty listing with a resolvable
artist URL means it is invoked.  In the album-songs cascade of
`handle_artist_search`: a non-empty album-endpoint fetch means neither the
album-page scrape nor the artist-songs filter fallback is invoked; an empty
fetch invokes the scrape exactly when the album has a truthy URL; and the
filter fallback is invoked exactly when the result is still empty after the
scrape stage (no URL, or the scrape returned nothing), while a non-empty
scrape result halts the cascade before the filter. -/
theorem c2_short_circuit :
    (∀ (c : ArtistClient) (fh : String → Except Unit Page) (name : String)
        (maxa fuel : Nat) (m : ArtistMeta),
      c.search_artist_meta = .ok (some m) →
      api_albums_for c maxa fuel m ≠ [] →
      search_artist_and_list_albums c fh name maxa fuel
        = .ok (some m, api_albums_for c maxa fuel m, false)) ∧
    (∀ (c : ArtistClient) (fh : String → Except Unit Page) (name : String)
        (maxa fuel : Nat) (m : ArtistMeta),
      c.search_artist_meta = .ok (some m) →
      api_albums_for c maxa fuel m = [] →
      truthyS (pyOrS m.url (craft_artist_url name)) = true →
      ∃ al, search_artist_and_list_albums c fh name maxa fuel = .ok (some m, al, true)) ∧
    (∀ (ac : AlbumClient) (fh : String → Except Unit Page) (sc : SongsClient)
        (ao : Option ArtistMeta) (aurl aname : Option String) (fuel : Nat),
      fetch_album_songs ac ≠ [] →
      album_songs_cascade ac fh sc ao aurl aname fuel
        = ((fetch_album_songs ac).map CascadeSong.endpointSong, false, false)) ∧
    (∀ (ac : AlbumClient) (fh : String → Except Unit Page) (sc : SongsClient)
        (ao : Option ArtistMeta) (aurl aname : Option String) (fuel : Nat),
      fetch_album_songs ac = [] → truthyS aurl = true →
      (album_songs_cascade ac fh sc ao aurl aname fuel).2.1 = true) ∧
    (∀ (ac : AlbumClient) (fh : String → Except Unit Page) (sc : SongsClient)
        (ao : Option ArtistMeta) (aurl aname : Option String) (fuel : Nat),
      fetch_album_songs ac = [] → truthyS aurl = false →
      (album_songs_cascade ac fh sc ao aurl aname fuel).2.1 = false ∧
      (album_songs_cascade ac fh sc ao aurl aname fuel).2.2 = true) ∧
    (∀ (ac : AlbumClient) (fh : String → Except Unit Page) (sc : SongsClient)
        (ao : Option ArtistMeta) (aurl aname : Option String) (fuel : Nat),
      fetch_album_songs ac = [] → truthyS aurl = true →
      (scrape_artist_albums_from_url fh (aurl.getD ("")) 200).1 ≠ [] →
      (album_songs_cascade ac fh sc ao aurl aname fuel).2.2 = false ∧
      (album_songs_cascade ac fh sc ao aurl aname fuel).1
        = ((scrape_artist_albums_from_url fh (aurl.getD ("")) 200).1).map
            CascadeSong.scrapedItem) ∧
    (∀ (ac : AlbumClient) (fh : String → Except Unit Page) (sc : SongsClient)
        (ao : Option ArtistMeta) (aurl aname : Option String) (fuel : Nat),
      fetch_album_songs ac = [] → truthyS aurl = true →
      (scrape_artist_albums_from_url fh (aurl.getD ("")) 200).1 = [] →
      (album_songs_cascade ac fh sc ao aurl aname fuel).2.2 = true) := by
  refine ⟨?_, ?_, ?_, ?_, ?_, ?_, ?_⟩
  · intro c fh name maxa fuel m hmeta hne
    have he : (api_albums_for c maxa fuel m).isEmpty = false := by
      simpa [List.isEmpty_iff] using hne
    simp [search_artist_and_list_albums, hmeta, he]
  · intro c fh name maxa fuel m hmeta hemp htr
    have he : (api_albums_for c maxa fuel m).isEmpty = true := by
      simp [List.isEmpty_iff, hemp]
    by_cases hs : (scrape_artist_albums_from_url fh
        ((pyOrS m.url (craft_artist_url name)).getD ("")) maxa).1 = []
    · refine ⟨api_albums_for c maxa fuel m, ?_⟩
      simp [search_artist_and_list_albums, hmeta, he, htr, hs]
    · refine ⟨((scrape_artist_albums_from_url fh
          ((pyOrS m.url (craft_artist_url name)).getD ("")) maxa).1).map
            (fun s => (⟨none, some s.name, some s.url⟩ : Album)), ?_⟩
      simp [search_artist_and_list_albums, hmeta, he, htr, hs]
  · intro ac fh sc ao aurl aname fuel hne
    have he : ((fetch_album_songs ac).map CascadeSong.endpointSong).isEmpty = false := by
      simpa [List.isEmpty_iff] using hne
    simp [album_songs_cascade, he]
  · intro ac fh sc ao aurl aname fuel hemp htr
    have he : ((fetch_album_songs ac).map CascadeSong.endpointSong).isEmpty = true := by
      simp [List.isEmpty_iff, hemp]
    by_cases hscrape : (scrape_artist_albums_from_url fh (aurl.getD ("")) 200).1 = []
    · simp [album_songs_cascade, he, htr, hscrape]
    · simp [album_songs_cascade, he, htr, hscrape]
  · intro ac fh sc ao aurl aname fuel hemp htr
    have he : ((fetch_album_songs ac).map CascadeSong.endpointSong).isEmpty = true := by
      simp [List.isEmpty_iff, hemp]
    refine ⟨?_, ?_⟩ <;> simp [album_songs_cascade, he, htr, hemp]
  · intro ac fh sc ao aurl aname fuel hemp htr hscr
    have he : ((fetch_album_songs ac).map CascadeSong.endpointSong).isEmpty = true := by
      simp [List.isEmpty_iff, hemp]
    have hscre : (((scrape_artist_albums_from_url fh (aurl.getD ("")) 200).1).map
        CascadeSong.scrapedItem).isEmpty = false := by
      simpa [List.isEmpty_iff] using hscr
    refine ⟨?_, ?_⟩ <;> simp [album_songs_cascade, he, htr, hscre]
  · intro ac fh sc ao aurl aname fuel hemp htr hscr
    have he : ((fetch_album_songs ac).map CascadeSong.endpointSong).isEmpty = true := by
      simp [List.isEmpty_iff, hemp]
    have hscre : (((scrape_artist_albums_from_url fh (aurl.getD ("")) 200).1).map
        CascadeSong.scrapedItem).isEmpty = true := by
      simp [List.isEmpty_iff, hscr]
    simp [album_songs_cascade, he, htr, hscre]

/-- Witness for C2: the short-circuit conjunct applied to a client whose
primary album listing has one named album — the scrape is not invoked. -/
theorem c2_witness :
    c2_client.search_artist_meta = .ok (some c2_meta) ∧
      api_albums_for c2_client 500 10 c2_meta ≠ [] ∧
      search_artist_and_list_albums c2_client (fun _ => .error ()) ("X") 500 10
        = .ok (some c2_meta, api_albums_for c2_client 500 10 c2_meta, false) :=
  ⟨rfl, by decide,
    c2_short_circuit.1 c2_client (fun _ => .error ()) ("X") 500 10 c2_meta rfl (by decide)⟩

/-- A variant whose fetch fails contributes nothing: the loop carries its
accumulator past it unchanged. -/
theorem scrape_loop_all_fail (fetch : String → Except Unit Page) (maxa : Nat) :
    ∀ (urls : List String) (found : List ScrapedAlbum) (seen : List String),
      (∀ u ∈ urls, fetch_failed (fetch u) = true) →
      scrape_loop fetch maxa urls found seen = (found, urls) := by
  intro urls
  induction urls with
  | nil => intro found seen h; rfl
  | cons u rest ih =>
    intro found seen h
    have hu : fetch_failed (fetch u) = true := h u (List.mem_cons_self u rest)
    have hrest : ∀ v ∈ rest, fetch_failed (fetch v) = true :=
      fun v hv => h v (List.mem_cons_of_mem u hv)
    cases hf : fetch u with
    | error e =>
      simp [scrape_loop, hf, ih found seen hrest]
    | ok p =>
      have hst : p.status ≠ 200 := by
        rw [hf] at hu
        simpa [fetch_failed] using hu
      simp [scrape_loop, hf, hst, ih found seen hrest]

/-- C7: when every URL variant fails (network error, non-200 status, or parse
error — all modelled by `fetch_failed`), the scraper returns the empty list
after having tried all three variants, and raises nothing to its caller (the
function is total and yields a plain list). -/
theorem c7_all_variants_fail :
    ∀ (fetch : String → Except Unit Page) (artist_url : String) (max_albums : Nat),
      (∀ u ∈ scrape_variants artist_url, fetch_failed (fetch u) = true) →
      scrape_artist_albums_from_url fetch artist_url max_albums
        = ([], scrape_variants artist_url) := by
  intro fetch artist_url max_albums h
  exact scrape_loop_all_fail fetch max_albums (scrape_variants artist_url) [] [] h

/-- Witness for C7: a fetch oracle that always raises makes the scraper
return the empty list after trying the three variants. -/
theorem c7_witness :
    (∀ u ∈ scrape_variants ("https://genius.com/artists/X"),
      fetch_failed ((fun _ => .error ()) u) = true) ∧
      scrape_artist_albums_from_url (fun _ => .error ()) ("https://genius.com/artists/X") 200
        = ([], scrape_variants ("https://genius.com/artists/X")) :=
  ⟨by decide, c7_all_variants_fail (fun _ => .error ()) ("https://genius.com/artists/X") 200
    (by decide)⟩

/-- Stepping the variant loop past a failed fetch: the URL is recorded and
the state is unchanged. -/
theorem scrape_loop_cons_fail (fetch : String → Except Unit Page) (maxa : Nat)
    (u : String) (rest : List String) (found : List ScrapedAlbum) (seen : List String)
    (h : fetch_failed (fetch u) = true) :
    scrape_loop fetch maxa (u :: rest) found seen
      = ((scrape_loop fetch maxa rest found seen).1,
         u :: (scrape_loop fetch maxa rest found seen).2) := by
  cases hf : fetch u with
  | error e => simp only [scrape_loop, hf]
  | ok p =>
    have hst : p.status ≠ 200 := by
      rw [hf] at h
      simpa [fetch_failed] using h
    simp only [scrape_loop, hf]
    simp [hst]

/-- Stepping the variant loop at a 200 page whose processing yields
candidates: the loop stops there. -/
theorem scrape_loop_cons_hit (fetch : String → Except Unit Page) (maxa : Nat)
    (u : String) (rest : List String) (found : List ScrapedAlbum) (seen : List String)
    (page : Page) (hok : fetch u = .ok page) (h200 : page.status = 200)
    (hne : (process_variant u maxa page found seen).1 ≠ []) :
    scrape_loop fetch maxa (u :: rest) found seen
      = ((process_variant u maxa page found seen).1, [u]) := by
  have hE : (process_variant u maxa page found seen).1.isEmpty = false := by
    simpa [List.isEmpty_iff] using hne
  simp only [scrape_loop, hok]
  simp [h200, hE]

/-- C6 (counterexample): the `/albums` variant of `c6_fetch` has an anchor
matching the album URL pattern, yet because its derived display name is empty
the candidate is skipped, the variant yields nothing and the scraper goes on
to fetch the `/discography` variant — refuting the claim that a variant with
at least one matching anchor stops the scan. -/
theorem c6_counterexample :
    matches_album_href ("/albums/A/-") = true ∧
    scrape_artist_albums_from_url c6_fetch c6_base 200
      = ([⟨("Good Album"), ("https://genius.com/albums/A/Good-Album")⟩],
         [c6_base, c6_base ++ ("/albums"), c6_base ++ ("/discography")]) ∧
    (c6_base ++ ("/discography"))
      ∈ (scrape_artist_albums_from_url c6_fetch c6_base 200).2 := by
  refine ⟨by decide, by decide, by decide⟩

/-- C6 (amended): when the first URL variant fails and the `/albums` variant
returns a 200 page whose processing yields at least one candidate (a matching
anchor with a non-empty derived name), the scraper returns exactly those
candidates and requests no further variant.  The derived name of a candidate
from a whole-page anchor with non-empty cleaned text is the anchor text
stripped of the trailing site-name suffix and track-count annotation and of
the leading ordinal; when the cleaned text is empty the name falls back to
the slug derived from the URL path segment. -/
theorem c6_scrape_amended :
    (∀ (fetch : String → Except Unit Page) (base : String) (maxa : Nat) (page : Page),
      fetch_failed (fetch (rstrip_slashes base)) = true →
      fetch (rstrip_slashes base ++ ("/albums")) = .ok page →
      page.status = 200 →
      (process_variant (rstrip_slashes base ++ ("/albums")) maxa page [] []).1 ≠ [] →
      scrape_artist_albums_from_url fetch base maxa
        = ((process_variant (rstrip_slashes base ++ ("/albums")) maxa page [] []).1,
           [rstrip_slashes base, rstrip_slashes base ++ ("/albums")])) ∧
    (∀ (u href t : String) (maxa : Nat),
      matches_album_href (py_strip href) = true →
      str_empty (clean_anchor_text t) = false →
      str_empty (py_strip (strip_lead_ordinal (clean_anchor_text t))) = false →
      process_variant u maxa ⟨200, [], [⟨href, t, none⟩]⟩ [] []
        = ([⟨py_strip (strip_lead_ordinal (clean_anchor_text t)),
             urljoin u (py_strip href)⟩],
           [urljoin u (py_strip href)])) ∧
    (∀ (u href t : String) (maxa : Nat),
      matches_album_href (py_strip href) = true →
      str_empty (clean_anchor_text t) = true →
      str_empty (py_strip (strip_lead_ordinal
        (slug_from_url (urljoin u (py_strip href))))) = false →
      process_variant u maxa ⟨200, [], [⟨href, t, none⟩]⟩ [] []
        = ([⟨py_strip (strip_lead_ordinal
              (slug_from_url (urljoin u (py_strip href)))),
             urljoin u (py_strip href)⟩],
           [urljoin u (py_strip href)])) := by
  refine ⟨?_, ?_, ?_⟩
  · intro fetch base maxa page hfail hok h200 hne
    have hinner := scrape_loop_cons_hit fetch maxa (rstrip_slashes base ++ ("/albums"))
      [rstrip_slashes base ++ ("/discography")] [] [] page hok h200 hne
    have houter := scrape_loop_cons_fail fetch maxa (rstrip_slashes base)
      [rstrip_slashes base ++ ("/albums"), rstrip_slashes base ++ ("/discography")] [] [] hfail
    show scrape_loop fetch maxa (scrape_variants base) [] [] = _
    rw [scrape_variants]
    rw [houter, hinner]
  · intro u href t maxa hm hct hnm
    by_cases hcap : maxa ≤ 1
    · simp [process_variant, section_anchors_outer, page_anchors_loop, page_anchor_step,
        hm, scrape_post_loop, post_anchor_name, hct, hnm, hcap]
    · simp [process_variant, section_anchors_outer, page_anchors_loop, page_anchor_step,
        hm, scrape_post_loop, post_anchor_name, hct, hnm, hcap]
  · intro u href t maxa hm hct hnm
    by_cases hcap : maxa ≤ 1
    · simp [process_variant, section_anchors_outer, page_anchors_loop, page_anchor_step,
        hm, scrape_post_loop, post_anchor_name, hct, hnm, hcap]
    · simp [process_variant, section_anchors_outer, page_anchors_loop, page_anchor_step,
        hm, scrape_post_loop, post_anchor_name, hct, hnm, hcap]

/-- Witness for C6: the amended theorem applied to `c6_ok_fetch`, whose
primary variant 404s and whose `/albums` variant carries one good anchor. -/
theorem c6_witness :
    fetch_failed (c6_ok_fetch (rstrip_slashes c6_base)) = true ∧
      c6_ok_page.status = 200 ∧
      scrape_artist_albums_from_url c6_ok_fetch c6_base 200
        = ((process_variant (rstrip_slashes c6_base ++ ("/albums")) 200 c6_ok_page [] []).1,
           [rstrip_slashes c6_base, rstrip_slashes c6_base ++ ("/albums")]) :=
  ⟨by decide, rfl,
    c6_scrape_amended.1 c6_ok_fetch c6_base 200 c6_ok_page (by decide) (by rfl) rfl
      (by decide)⟩

/-- A pair emitted by the whole-page anchor step carries a URL that was not
yet seen. -/
theorem page_anchor_step_not_seen (u : String) (a : Anchor) (seen : List String)
    (pr : String × String) (h : page_anchor_step u a seen = some pr) : pr.2 ∉ seen := by
  simp only [page_anchor_step] at h
  by_cases hm : matches_album_href (py_strip a.href)
  · rw [if_pos hm] at h
    by_cases hs : urljoin u (py_strip a.href) ∈ seen
    · rw [if_pos hs] at h
      exact absurd h (by simp)
    · rw [if_neg hs] at h
      have hpr := Option.some_inj.mp h
      rw [← hpr]
      exact hs
  · rw [if_neg hm] at h
    exact absurd h (by simp)

/-- A pair emitted by the container-pass anchor step carries a URL that was
not yet seen. -/
theorem section_anchor_step_not_seen (u : String) (a : Anchor) (seen : List String)
    (pr : String × String) (h : section_anchor_step u a seen = some pr) : pr.2 ∉ seen := by
  simp only [section_anchor_step] at h
  by_cases hm : matches_album_href (py_strip a.href)
  · rw [if_pos hm] at h
    by_cases hs : urljoin u (py_strip a.href) ∈ seen
    · rw [if_pos hs] at h
      exact absurd h (by simp)
    · rw [if_neg hs] at h
      have hpr := Option.some_inj.mp h
      rw [← hpr]
      exact hs
  · rw [if_neg hm] at h
    exact absurd h (by simp)

/-- The whole-page anchor loop appends pairs whose URLs extend the seen set
in lockstep, keeping it duplicate-free. -/
theorem page_anchors_loop_spec (u : String) (maxa : Nat) :
    ∀ (l : List Anchor) (pairs : List (String × String)) (seen : List String),
      seen.Nodup →
      ∃ t, page_anchors_loop u maxa l pairs seen
          = (pairs ++ t, seen ++ t.map Prod.snd) ∧
        (seen ++ t.map Prod.snd).Nodup := by
  intro l
  induction l with
  | nil =>
    intro pairs seen hnd
    exact ⟨[], by simp [page_anchors_loop], by simpa using hnd⟩
  | cons a rest ih =>
    intro pairs seen hnd
    cases hst : page_anchor_step u a seen with
    | none =>
      obtain ⟨t, ht, hnd2⟩ := ih pairs seen hnd
      exact ⟨t, by simp [page_anchors_loop, hst, ht], hnd2⟩
    | some pr =>
      have hnotin : pr.2 ∉ seen := page_anchor_step_not_seen u a seen pr hst
      have hnd2 : (seen ++ [pr.2]).Nodup := by
        simp [List.nodup_append, hnd, hnotin]
      by_cases hcap : maxa ≤ pairs.length + 1
      · refine ⟨[pr], ?_, by simpa using hnd2⟩
        simp [page_anchors_loop, hst, hcap]
      · obtain ⟨t, ht, hnd3⟩ := ih (pairs ++ [pr]) (seen ++ [pr.2]) hnd2
        refine ⟨pr :: t, ?_, ?_⟩
        · simp [page_anchors_loop, hst, hcap, ht]
        · simpa using hnd3

/-- The container-pass anchor loop appends pairs whose URLs extend the seen
set in lockstep, keeping it duplicate-free. -/
theorem section_anchors_inner_spec (u : String) (maxa : Nat) :
    ∀ (l : List Anchor) (pairs : List (String × String)) (seen : List String),
      seen.Nodup →
      ∃ t, section_anchors_inner u maxa l pairs seen
          = (pairs ++ t, seen ++ t.map Prod.snd) ∧
        (seen ++ t.map Prod.snd).Nodup := by
  intro l
  induction l with
  | nil =>
    intro pairs seen hnd
    exact ⟨[], by simp [section_anchors_inner], by simpa using hnd⟩
  | cons a rest ih =>
    intro pairs seen hnd
    cases hst : section_anchor_step u a seen with
    | none =>
      obtain ⟨t, ht, hnd2⟩ := ih pairs seen hnd
      exact ⟨t, by simp [section_anchors_inner, hst, ht], hnd2⟩
    | some pr =>
      have hnotin : pr.2 ∉ seen := section_anchor_step_not_seen u a seen pr hst
      have hnd2 : (seen ++ [pr.2]).Nodup := by
        simp [List.nodup_append, hnd, hnotin]
      by_cases hcap : maxa ≤ pairs.length + 1
      · refine ⟨[pr], ?_, by simpa using hnd2⟩
        simp [section_anchors_inner, hst, hcap]
      · obtain ⟨t, ht, hnd3⟩ := ih (pairs ++ [pr]) (seen ++ [pr.2]) hnd2
        refine ⟨pr :: t, ?_, ?_⟩
        · simp [section_anchors_inner, hst, hcap, ht]
        · simpa using hnd3

/-- The loop over all containers satisfies the same seen-set invariant. -/
theorem section_anchors_outer_spec (u : String) (maxa : Nat) :
    ∀ (ls : List (List Anchor)) (pairs : List (String × String)) (seen : List String),
      seen.Nodup →
      ∃ t, section_anchors_outer u maxa ls pairs seen
          = (pairs ++ t, seen ++ t.map Prod.snd) ∧
        (seen ++ t.map Prod.snd).Nodup := by
  intro ls
  induction ls with
  | nil =>
    intro pairs seen hnd
    exact ⟨[], by simp [section_anchors_outer], by simpa using hnd⟩
  | cons secl rest ih =>
    intro pairs seen hnd
    obtain ⟨t1, ht1, hnd1⟩ := section_anchors_inner_spec u maxa secl pairs seen hnd
    by_cases hcap : maxa ≤ pairs.length + t1.length
    · exact ⟨t1, by simp [section_anchors_outer, ht1, hcap], hnd1⟩
    · obtain ⟨t2, ht2, hnd2⟩ := ih (pairs ++ t1) (seen ++ t1.map Prod.snd) hnd1
      refine ⟨t1 ++ t2, ?_, ?_⟩
      · simp [section_anchors_outer, ht1, hcap, ht2]
      · simpa using hnd2

/-- The post-processing loop appends candidates whose URLs form a
subsequence of the collected pair URLs. -/
theorem scrape_post_loop_spec (maxa : Nat) :
    ∀ (prs : List (String × String)) (found : List ScrapedAlbum),
      ∃ t, scrape_post_loop maxa prs found = found ++ t ∧
        (t.map ScrapedAlbum.url).Sublist (prs.map Prod.snd) := by
  intro prs
  induction prs with
  | nil => intro found; exact ⟨[], by simp [scrape_post_loop], by simp⟩
  | cons pr rest ih =>
    intro found
    by_cases hemp : str_empty (post_anchor_name pr) = true
    · obtain ⟨t, ht, hsub⟩ := ih found
      refine ⟨t, by simp [scrape_post_loop, hemp, ht], ?_⟩
      simp only [List.map_cons]
      exact hsub.cons pr.2
    · by_cases hcap : maxa ≤ found.length + 1
      · refine ⟨[⟨post_anchor_name pr, pr.2⟩], ?_, ?_⟩
        · simp [scrape_post_loop, hemp, hcap]
        · simp only [List.map_cons]
          exact (List.nil_sublist _).cons₂ pr.2
      · obtain ⟨t, ht, hsub⟩ := ih (found ++ [⟨post_anchor_name pr, pr.2⟩])
        refine ⟨⟨post_anchor_name pr, pr.2⟩ :: t, ?_, ?_⟩
        · simp [scrape_post_loop, hemp, hcap, ht]
        · simp only [List.map_cons]
          exact hsub.cons₂ pr.2

/-- Whatever pass a variant takes, its new candidates come from pairs whose
URLs extend the seen set in lockstep, keeping it duplicate-free. -/
theorem process_variant_spec (u : String) (maxa : Nat) (page : Page)
    (found : List ScrapedAlbum) (seen : List String) (hnd : seen.Nodup) :
    ∃ ps, process_variant u maxa page found seen
        = (scrape_post_loop maxa ps found, seen ++ ps.map Prod.snd) ∧
      (seen ++ ps.map Prod.snd).Nodup := by
  obtain ⟨t1, ht1, hnd1⟩ :=
    section_anchors_outer_spec u maxa page.section_anchor_lists [] seen hnd
  by_cases hE : t1.isEmpty
  · have ht10 : t1 = [] := by
      simpa [List.isEmpty_iff] using hE
    subst ht10
    have ht1' : section_anchors_outer u maxa page.section_anchor_lists [] seen
        = ([], seen) := by
      simpa using ht1
    obtain ⟨t2, ht2, hnd2⟩ := page_anchors_loop_spec u maxa page.all_anchors [] seen hnd
    refine ⟨t2, ?_, hnd2⟩
    simp [process_variant, ht1', ht2]
  · have hEf : t1.isEmpty = false := by
      simpa using hE
    refine ⟨t1, ?_, hnd1⟩
    simp [process_variant, ht1, hEf]

/-- Along the variant loop the candidate URLs stay duplicate-free: every
candidate URL is recorded in the seen set, and new candidates only carry
unseen URLs. -/
theorem scrape_loop_urls_nodup (fetch : String → Except Unit Page) (maxa : Nat) :
    ∀ (urls : List String) (found : List ScrapedAlbum) (seen : List String),
      (found.map ScrapedAlbum.url).Nodup →
      (∀ x ∈ found.map ScrapedAlbum.url, x ∈ seen) →
      seen.Nodup →
      ((scrape_loop fetch maxa urls found seen).1.map ScrapedAlbum.url).Nodup := by
  intro urls
  induction urls with
  | nil => intro found seen h1 h2 h3; simpa [scrape_loop] using h1
  | cons u rest ih =>
    intro found seen h1 h2 h3
    cases hf : fetch u with
    | error e =>
      simpa [scrape_loop, hf] using ih found seen h1 h2 h3
    | ok p =>
      by_cases hst : p.status = 200
      · obtain ⟨ps, hps, hndps⟩ := process_variant_spec u maxa p found seen h3
        obtain ⟨t, ht, hsub⟩ := scrape_post_loop_spec maxa ps found
        rw [ht] at hps
        have hsnodup : (ps.map Prod.snd).Nodup := (List.nodup_append.mp hndps).2.1
        have hdisj : seen.Disjoint (ps.map Prod.snd) := (List.nodup_append.mp hndps).2.2
        have htnodup : (t.map ScrapedAlbum.url).Nodup := hsnodup.sublist hsub
        have hfound2 : ((found ++ t).map ScrapedAlbum.url).Nodup := by
          rw [List.map_append, List.nodup_append]
          refine ⟨h1, htnodup, ?_⟩
          intro x hx hx2
          exact hdisj (h2 x hx) (hsub.subset hx2)
        have hmem2 : ∀ x ∈ (found ++ t).map ScrapedAlbum.url,
            x ∈ seen ++ ps.map Prod.snd := by
          intro x hx
          rw [List.map_append] at hx
          rcases List.mem_append.mp hx with hx | hx
          · exact List.mem_append.mpr (Or.inl (h2 x hx))
          · exact List.mem_append.mpr (Or.inr (hsub.subset hx))
        by_cases hE : ((found ++ t : List ScrapedAlbum)).isEmpty = true
        · have hred : scrape_loop fetch maxa (u :: rest) found seen
              = ((scrape_loop fetch maxa rest (found ++ t) (seen ++ ps.map Prod.snd)).1,
                 u :: (scrape_loop fetch maxa rest (found ++ t)
                        (seen ++ ps.map Prod.snd)).2) := by
            simp [scrape_loop, hf, hst, hps, hE]
          rw [hred]
          exact ih (found ++ t) (seen ++ ps.map Prod.snd) hfound2 hmem2 hndps
        · have hred : scrape_loop fetch maxa (u :: rest) found seen
              = (found ++ t, [u]) := by
            simp [scrape_loop, hf, hst, hps, hE]
          rw [hred]
          exact hfound2
      · simpa [scrape_loop, hf, hst] using ih found seen h1 h2 h3

/-- C1 (counterexample): the album-songs fetch performs no deduplication —
an album whose track list carries two tracks with the same url yields two
returned entries with equal url fields, refuting the claim for the
album-songs fetch (and the shared-url case of the lyrics search fails the
claim the same way, compare `lyr_resp_dup`). -/
theorem c1_counterexample :
    fetch_album_songs album_client_dup
        = [⟨some ("A"), some ("X"), some ("u")⟩, ⟨some ("B"), some ("X"), some ("u")⟩] ∧
      ¬ List.Pairwise (fun a b : SongRec => a.url ≠ b.url)
          (fetch_album_songs album_client_dup) :=
  ⟨rfl, by decide⟩

/-- C1 (amended): the album-page scrape returns no two entries with equal
url (enforced by its seen-URL set); the lyrics-snippet search returns no two
entries that are equal as whole records (title, artist and url all equal),
though two entries agreeing only in url may both appear; the album-songs
fetch does not deduplicate at all. -/
theorem c1_dedup_amended :
    (∀ (r : LyricsResp) (af : Option String) (maxr : Nat) (l : List Entry),
      search_by_lyrics (.ok r) af maxr = .ok l → l.Nodup) ∧
    (∀ (fetch : String → Except Unit Page) (artist_url : String) (maxa : Nat),
      ((scrape_artist_albums_from_url fetch artist_url maxa).1.map
        ScrapedAlbum.url).Nodup) := by
  constructor
  · intro r af maxr l heq
    cases heq
    exact lyrics_sections_loop_nodup af maxr _ [] (by simp)
  · intro fetch artist_url maxa
    exact scrape_loop_urls_nodup fetch maxa (scrape_variants artist_url) [] []
      (by simp) (by simp) (by simp)

/-- Witness for C1: the lyrics conjunct applied to the two-hit shared-url
response — the two entries differ as records, so the list is duplicate-free
even though the urls coincide. -/
theorem c1_witness :
    search_by_lyrics (.ok lyr_resp_dup) none 10 = .ok lyr_dup_out ∧ lyr_dup_out.Nodup :=
  ⟨rfl, c1_dedup_amended.1 lyr_resp_dup none 10 lyr_dup_out rfl⟩

end MusicSearch
